import Mathlib

/-!
Shallow embedding of the client-side state management of the detective-game
repository (store/storySlice.ts, store/caseFileSlice.ts,
services/cartridgeLoader.ts), together with proofs about the claims of the
specification.

Modelling conventions:
* Redux entity-adapter collections are modelled as Lean lists of records;
  `state.xs.entities[id]` is `List.find?` on the id field and
  `adapter.updateOne` is a `List.map` that rewrites the entity with the
  matching id.
* JavaScript numbers used for time accounting are modelled as `Int`
  (all arithmetic in the modelled code is `+`, `-` and `Math.max 0`).
* JavaScript string dictionaries (`{ [id: string]: ... }`) are modelled as
  functions `String → Option _` / `String → Bool` (a missing key is `none`,
  and `!!undefined` is `false`).
* Optional fields and JS truthiness (`if (x)`, `x ?? d`, `x || d`) are made
  explicit with `Option` and helper functions below.
-/

/-- JS truthiness of an optional string: `undefined`, `null` and the empty
string are falsy, every other string is truthy. -/
def strTruthy : Option String → Bool
  | none => false
  | some s => s ≠ ""

-- ---------------------------------------------------------------------------
-- Data model (types.ts as used by the slices)
-- ---------------------------------------------------------------------------

/-- A data component owned by a character (`DataComponent` in types.ts).
The `props` payload is opaque to the modelled code except for the
physical-characteristics fields read by the mugshot synthesis, which we keep
as an association list of string key/value pairs. -/
structure DataComponent where
  type : String
  props : List (String × String)
  deriving Repr, DecidableEq

/-- Character connections record (`connections` in the cartridge). -/
structure Connections where
  relatedPeople : List String
  knownLocations : List String
  associatedObjects : List String
  deriving Repr, DecidableEq

/-- Runtime `Character` as produced by the cartridge transformer and stored in
the story slice. -/
structure Character where
  id : String
  name : String
  age : String
  occupation : String
  imagePrompt : String
  description : String
  role : String
  isSuspect : Bool
  connections : Connections
  testimonyIds : List String
  components : List DataComponent
  deriving Repr, DecidableEq

/-- Runtime `StoryObject` (evidence/item); only the fields read or written by
the modelled reducers are kept. -/
structure StoryObject where
  id : String
  name : String
  imagePrompt : String
  timestamp : String
  isEvidence : Bool
  assignedToSuspectIds : List String
  locationFoundId : String
  timeToAdd : Option Int
  hasBeenUnlocked : Bool
  deriving Repr, DecidableEq

/-- Runtime `StoryEvent`; only the fields touched by the reducers are kept. -/
structure StoryEvent where
  id : String
  hasBeenUnlocked : Bool
  deriving Repr, DecidableEq

/-- Runtime `Sublocation`; only the fields touched by the reducers are kept. -/
structure Sublocation where
  id : String
  isVisible : Bool
  hasBeenUnlocked : Bool
  deriving Repr, DecidableEq

/-- Runtime `Location`; only the fields read by the reducers are kept. -/
structure Location where
  id : String
  lastEventTimestamp : String
  deriving Repr, DecidableEq

/-- An `Evidence` timeline entry. -/
structure Evidence where
  id : String
  cardId : String
  cardType : String
  name : String
  imagePrompt : String
  timestampCollected : String
  locationId : String
  deriving Repr, DecidableEq

/-- A `Testimony` record. -/
structure Testimony where
  id : String
  title : String
  content : String
  sourceCharacterId : String
  deriving Repr, DecidableEq

/-- The `StoryInfo` record as stored in the story slice. -/
structure StoryInfo where
  mapImagePrompt : String
  mapTitle : String
  crimeSceneId : String
  deriving Repr, DecidableEq

/-- A single image generation request in the queue
(`ImageGenerationRequest` in storySlice.ts); the color treatment is one of
`monochrome`, `selectiveColor`, `map` and is passed through opaquely. -/
structure ImageGenerationRequest where
  cardId : String
  prompt : String
  colorTreatment : String
  deriving Repr, DecidableEq

/-- The story slice state (`StoryState` in storySlice.ts) restricted to the
fields involved in the modelled reducers and thunks. -/
structure StoryState where
  storyInfo : StoryInfo
  characters : List Character
  objects : List StoryObject
  events : List StoryEvent
  locations : List Location
  sublocations : List Sublocation
  evidence : List Evidence
  testimonies : List Testimony
  imageUrls : String → Option String
  imageLoading : String → Bool
  imageErrors : String → Bool
  imageGenerationQueue : List ImageGenerationRequest
  isProcessingQueue : Bool
  timeSpent : Int

-- ---------------------------------------------------------------------------
-- storySlice reducers
-- ---------------------------------------------------------------------------

/-- The economy step of the `addToTimeline` reducer: a first-ever unlock
(`hasBeenUnlocked` false) charges `timeToAdd ?? 0` to `timeSpent` and flips
`isEvidence` and `hasBeenUnlocked`; a re-add only flips `isEvidence`. -/
def addToTimelineChargeStep (st : StoryState) (id : String) (item : StoryObject) :
    StoryState :=
  if !item.hasBeenUnlocked then
    let cost := item.timeToAdd.getD 0
    { st with
      timeSpent := st.timeSpent + cost,
      objects := st.objects.map (fun o =>
        if o.id = id then { o with isEvidence := true, hasBeenUnlocked := true } else o) }
  else
    { st with
      objects := st.objects.map (fun o =>
        if o.id = id then { o with isEvidence := true } else o) }

/-- The tail of the `addToTimeline` reducer: append the Evidence entry for
the item (guarded by the source's second, redundant duplicate check),
resolving the entry's location from the item's `locationFoundId` with a
fallback to the first location; when no location resolves nothing is
appended. -/
def addToTimelinePushStep (st1 : StoryState) (id : String) (item : StoryObject) :
    StoryState :=
  if st1.evidence.any (fun e => e.cardId = id) then st1
  else
    match (st1.locations.find? (fun l => l.id = item.locationFoundId)).orElse
          (fun _ => st1.locations.head?) with
    | none => st1
    | some location =>
      { st1 with
        evidence := st1.evidence ++ [{
          id := "ev-" ++ id,
          cardId := item.id,
          cardType := "object",
          name := item.name,
          imagePrompt := item.imagePrompt,
          timestampCollected := item.timestamp,
          locationId := location.id }] }

/-- Reducer `addToTimeline(state, action: PayloadAction<string>)`.
Exits when the object does not resolve or an Evidence entry with this cardId
is already on the timeline; otherwise runs the economy step followed by the
Evidence-append step (the two halves of the source reducer body). -/
def addToTimeline (st : StoryState) (id : String) : StoryState :=
  match st.objects.find? (fun o => o.id = id) with
  | none => st
  | some item =>
    if st.evidence.any (fun e => e.cardId = id) then st
    else addToTimelinePushStep (addToTimelineChargeStep st id item) id item

/-- Reducer `removeFromTimeline(state, action: PayloadAction<string>)`:
when the object exists and `isEvidence` is set, flip `isEvidence` off, clear
`assignedToSuspectIds` and drop every Evidence entry with this cardId; time
is not refunded. -/
def removeFromTimeline (st : StoryState) (id : String) : StoryState :=
  match st.objects.find? (fun o => o.id = id) with
  | none => st
  | some item =>
    if item.isEvidence then
      { st with
        objects := st.objects.map (fun o =>
          if o.id = id then { o with isEvidence := false, assignedToSuspectIds := [] } else o),
        evidence := st.evidence.filter (fun e => ¬ (e.cardId = id)) }
    else st

/-- The target-type discriminator of the `unlockEntity` payload. -/
inductive UnlockType
  | location
  | sublocation
  | evidence
  | character
  | event
  deriving Repr, DecidableEq

/-- Reducer `unlockEntity(state, action)`: unconditionally adds the payload's
`timeToAdd` to `timeSpent`, then per target type flips unlock flags on the
target entity when it resolves and is not yet unlocked.  `location` and
`character` targets only charge time. -/
def unlockEntity (st : StoryState) (ty : UnlockType) (ref : String) (timeToAdd : Int) :
    StoryState :=
  let st := { st with timeSpent := st.timeSpent + timeToAdd }
  match ty with
  | .location => st
  | .sublocation =>
    match st.sublocations.find? (fun s => s.id = ref) with
    | some sub =>
      if !sub.hasBeenUnlocked then
        { st with sublocations := st.sublocations.map (fun s =>
            if s.id = ref then { s with isVisible := true, hasBeenUnlocked := true } else s) }
      else st
    | none => st
  | .evidence =>
    match st.objects.find? (fun o => o.id = ref) with
    | some obj =>
      if !obj.hasBeenUnlocked then
        { st with objects := st.objects.map (fun o =>
            if o.id = ref then { o with hasBeenUnlocked := true } else o) }
      else st
    | none => st
  | .character => st
  | .event =>
    match st.events.find? (fun e => e.id = ref) with
    | some ev =>
      if !ev.hasBeenUnlocked then
        { st with events := st.events.map (fun e =>
            if e.id = ref then { e with hasBeenUnlocked := true } else e) }
      else st
    | none => st

/-- Reducer `addTimeSpent`: adds the payload to the player's total. -/
def addTimeSpent (st : StoryState) (amount : Int) : StoryState :=
  { st with timeSpent := st.timeSpent + amount }

/-- Reducer `subtractTimeSpent`: `state.timeSpent = Math.max(0, state.timeSpent - amount)`. -/
def subtractTimeSpent (st : StoryState) (amount : Int) : StoryState :=
  { st with timeSpent := max 0 (st.timeSpent - amount) }

/-- Reducer `addDynamicObject`: `objectsAdapter.addOne`, which inserts the
object only when no entity with its id is present. -/
def addDynamicObject (st : StoryState) (obj : StoryObject) : StoryState :=
  match st.objects.find? (fun o => o.id = obj.id) with
  | some _ => st
  | none => { st with objects := st.objects ++ [obj] }

/-- Reducer `assignEvidenceToSuspect`: toggles membership of `suspectId` in
the object's `assignedToSuspectIds`. -/
def assignEvidenceToSuspect (st : StoryState) (objectId suspectId : String) : StoryState :=
  match st.objects.find? (fun o => o.id = objectId) with
  | none => st
  | some obj =>
    let assignedIds :=
      if obj.assignedToSuspectIds.contains suspectId then
        obj.assignedToSuspectIds.filter (fun i => ¬ (i = suspectId))
      else obj.assignedToSuspectIds ++ [suspectId]
    { st with objects := st.objects.map (fun o =>
        if o.id = objectId then { o with assignedToSuspectIds := assignedIds } else o) }

-- ---------------------------------------------------------------------------
-- Cartridge load (loadStoryCartridge thunk payload and fulfilled reducer)
-- ---------------------------------------------------------------------------

/-- The transform output consumed by the `loadStoryCartridge.fulfilled`
reducer (`StoryData` restricted to the modelled fields). -/
structure StoryData where
  title : String
  storyInfo : StoryInfo
  characters : List Character
  objects : List StoryObject
  events : List StoryEvent
  locations : List Location
  sublocations : List Sublocation
  testimonies : List Testimony
  deriving Repr, DecidableEq

/-- The initial Evidence synthesized by the `loadStoryCartridge` thunk: one
entry for the victim's death at the crime scene (or the first location when
the crime scene is unset/unresolvable), provided a victim exists. -/
def initialEvidenceFor (sd : StoryData) : List Evidence :=
  let victim := sd.characters.find? (fun c => c.role = "victim")
  let crimeScene :=
    if strTruthy (some sd.storyInfo.crimeSceneId) then
      sd.locations.find? (fun l => l.id = sd.storyInfo.crimeSceneId)
    else none
  let evidenceLocation := crimeScene.orElse (fun _ => sd.locations.head?)
  match victim, evidenceLocation with
  | some v, some loc =>
    [{ id := "ev-initial-crime",
       cardId := v.id,
       cardType := "character",
       name := "The Death of " ++ v.name,
       imagePrompt := v.imagePrompt,
       timestampCollected := loc.lastEventTimestamp,
       locationId := loc.id }]
  | _, _ => []

/-- The `loadStoryCartridge.fulfilled` case reducer: replaces every
collection with the transform output and installs the synthesized initial
evidence. -/
def loadStoryCartridgeFulfilled (st : StoryState) (sd : StoryData) : StoryState :=
  { st with
    storyInfo := sd.storyInfo,
    characters := sd.characters,
    objects := sd.objects,
    events := sd.events,
    locations := sd.locations,
    sublocations := sd.sublocations,
    evidence := initialEvidenceFor sd,
    testimonies := sd.testimonies }

-- ---------------------------------------------------------------------------
-- Story operations as a step relation
-- ---------------------------------------------------------------------------

/-- The dispatchable story-slice mutations modelled in this file. -/
inductive StoryOp
  | add (id : String)
  | remove (id : String)
  | unlock (ty : UnlockType) (ref : String) (timeToAdd : Int)
  | addTime (amount : Int)
  | subTime (amount : Int)
  | addDyn (obj : StoryObject)
  | assign (objectId suspectId : String)
  deriving Repr, DecidableEq

/-- Apply one story operation. -/
def applyStoryOp (st : StoryState) : StoryOp → StoryState
  | .add id => addToTimeline st id
  | .remove id => removeFromTimeline st id
  | .unlock ty ref t => unlockEntity st ty ref t
  | .addTime a => addTimeSpent st a
  | .subTime a => subtractTimeSpent st a
  | .addDyn obj => addDynamicObject st obj
  | .assign o s => assignEvidenceToSuspect st o s

/-- Apply a sequence of story operations, first to last. -/
def applyStoryOps (st : StoryState) (ops : List StoryOp) : StoryState :=
  ops.foldl applyStoryOp st

/-- The `hasBeenUnlocked` flag of the object with the given id (false when no
such object exists). -/
def objUnlocked (st : StoryState) (id : String) : Bool :=
  ((st.objects.find? (fun o => o.id = id)).map (fun o => o.hasBeenUnlocked)).getD false

/-- The `timeToAdd ?? 0` of the object with the given id (0 when no such
object exists). -/
def objTimeToAdd (st : StoryState) (id : String) : Int :=
  ((st.objects.find? (fun o => o.id = id)).bind (fun o => o.timeToAdd)).getD 0

-- ---------------------------------------------------------------------------
-- caseFileSlice (Interactive Case File state machine)
-- ---------------------------------------------------------------------------

/-- The `CaseFileViewMode` union in types.ts. -/
inductive ViewMode
  | workspace
  | timeline
  deriving Repr, DecidableEq

/-- A case-file `Clue`.  `type` is the raw string from the cartridge
(`PRIMARY` / `SUPPORTING`). -/
structure Clue where
  id : String
  eventKey : String
  text : String
  type : String
  category : String
  points : Int
  bonusPoints : Option Int
  deriving Repr, DecidableEq

/-- A case-file `EvidenceSlot`.  Supporting slots in the cartridge carry no
`correctEventKey`, hence the `Option`. -/
structure EvidenceSlot where
  slotId : String
  correctEventKey : Option String
  placedClueId : Option String
  deriving Repr, DecidableEq

/-- A case-file `TimelineAnchor`: one primary slot plus supporting slots. -/
structure TimelineAnchor where
  id : String
  title : String
  timeLabel : String
  primarySlot : EvidenceSlot
  supportingSlots : List EvidenceSlot
  deriving Repr, DecidableEq

/-- The case-file slice state (`CaseFileState` in caseFileSlice.ts). -/
structure CaseFileState where
  viewMode : ViewMode
  activeTab : String
  selectedClueId : Option String
  clues : List Clue
  slots : List EvidenceSlot
  anchors : List TimelineAnchor
  score : Int
  lastIncorrectSlotId : Option String
  deriving Repr, DecidableEq

/-- Function `createEmptyInitialState()` of caseFileSlice.ts: the pre-load empty case
file (workspace view, `motive` tab, nothing selected, no entities, score 0). -/
def createEmptyInitialState : CaseFileState :=
  { viewMode := .workspace,
    activeTab := "motive",
    selectedClueId := none,
    clues := [],
    slots := [],
    anchors := [],
    score := 0,
    lastIncorrectSlotId := none }

/-- Reducer `placeClueInSlot(state, action: PayloadAction<{slotId}>)`.
Uses the currently selected clue; a falsy selection or an unresolvable clue,
slot or active anchor leaves the state unchanged.  A PRIMARY clue is correct
iff the slot's `correctEventKey` equals the clue's `eventKey`; a SUPPORTING
clue is correct iff the active anchor's primary slot already holds a (truthy)
placed clue, the target slot is among the anchor's supporting slots, and the
clue's category equals the anchor's id.  Correct: record the placement (the
clue stays in the master list), add `points + (bonusPoints || 0)` to the
score, clear the selection and the incorrect marker.  Incorrect: only set
`lastIncorrectSlotId`.  The local `isCorrect` computation of the reducer is
factored out as `placeClueCorrectFlag`. -/
def placeClueCorrectFlag (st : CaseFileState) (clue : Clue) (slot : EvidenceSlot)
    (anchor : TimelineAnchor) (slotId : String) : Bool :=
  if clue.type = "PRIMARY" then
    slot.correctEventKey = some clue.eventKey
  else if clue.type = "SUPPORTING" then
    let primarySlotFilled :=
      strTruthy ((st.slots.find? (fun s => s.slotId = anchor.primarySlot.slotId)).bind
        (fun s => s.placedClueId))
    let isSupportingSlot := anchor.supportingSlots.any (fun s => s.slotId = slotId)
    primarySlotFilled && isSupportingSlot && clue.category = anchor.id
  else false

def placeClueInSlot (st : CaseFileState) (slotId : String) : CaseFileState :=
  if !(strTruthy st.selectedClueId) then st
  else
    let clueId := st.selectedClueId.getD ""
    match st.clues.find? (fun c => c.id = clueId),
          st.slots.find? (fun s => s.slotId = slotId),
          st.anchors.find? (fun a => a.id = st.activeTab) with
    | some clue, some slot, some anchor =>
      if placeClueCorrectFlag st clue slot anchor slotId then
        { st with
          slots := st.slots.map (fun s =>
            if s.slotId = slotId then { s with placedClueId := some clueId } else s),
          score := st.score + clue.points + clue.bonusPoints.getD 0,
          selectedClueId := none,
          lastIncorrectSlotId := none }
      else
        { st with lastIncorrectSlotId := some slotId }
    | _, _, _ => st

/-- Reducer `clearLastIncorrectSlot`. -/
def clearLastIncorrectSlot (st : CaseFileState) : CaseFileState :=
  { st with lastIncorrectSlotId := none }

/-- Reducer `resetInvestigation`.  The source returns `createInitialState()`,
but no `createInitialState` is defined or imported anywhere in the repository
(the helper the module defines is `createEmptyInitialState`), so dispatching
the action evaluates an unresolved identifier and throws a `ReferenceError`
instead of producing a state.  Fallible code is modelled with `Except`. -/
def resetInvestigation (_st : CaseFileState) : Except String CaseFileState :=
  .error "ReferenceError: createInitialState is not defined"

/-- What the reducer's own comment ("Return to the initial state") and the
spec intend `resetInvestigation` to do: restore the module's initial state,
i.e. `createEmptyInitialState()`. -/
def resetInvestigationIntended (_st : CaseFileState) : CaseFileState :=
  createEmptyInitialState

/-- Selector `selectIsInvestigationComplete`: every slot holds a truthy
`placedClueId`. -/
def selectIsInvestigationComplete (st : CaseFileState) : Bool :=
  st.slots.all (fun slot => strTruthy slot.placedClueId)

-- ---------------------------------------------------------------------------
-- cartridgeLoader.ts: character transform (testimony and mugshot synthesis)
-- ---------------------------------------------------------------------------

/-- A raw cartridge character as read by `transformCharacterData`; fields the
cartridge may omit are `Option`s. -/
structure RawCharacter where
  id : String
  name : String
  age : String
  role : String
  occupation : String
  imagePrompt : String
  bio : String
  isSuspect : Bool
  statement : Option String
  components : Option (List DataComponent)
  connections : Option Connections
  deriving Repr, DecidableEq

/-- A raw cartridge object as read (and appended to) by
`transformCharacterData`; only the fields that function touches are kept. -/
structure RawObject where
  id : String
  name : String
  unidentifiedDescription : String
  ownerCharacterId : Option String
  authorCharacterId : Option String
  category : Option String
  locationFoundId : String
  timestamp : String
  imagePrompt : String
  description : String
  rarity : Option String
  timeToAdd : Option Int
  deriving Repr, DecidableEq

/-- The mugshot image prompt interpolated from a suspect's physical
characteristics (`props` lookups model the JS field accesses; a missing field
stringifies as `undefined`, and `features || ''` defaults to empty). -/
def mugshotPrompt (name : String) (props : List (String × String)) : String :=
  "Mugshot of " ++ name ++
  ". Front and side profile view against a height chart. A plaque in front displays their details: Height: "
  ++ ((props.lookup "height").getD "undefined") ++ ", Weight: "
  ++ ((props.lookup "weight").getD "undefined") ++ ", Eyes: "
  ++ ((props.lookup "eyes").getD "undefined") ++ ", Hair: "
  ++ ((props.lookup "hair").getD "undefined") ++ ". "
  ++ ((props.lookup "features").getD "")
  ++ " The style is high-contrast, gritty, Sin City noir. Photorealistic, hyper-detailed, sharp focus."

/-- The booking-photo raw object `transformCharacterData` appends for a
suspect with physical characteristics.  `new Date().toISOString()` is the
caller-supplied `now`. -/
def mugshotObject (now : String) (c : RawCharacter) (props : List (String × String)) :
    RawObject :=
  { id := "obj_mugshot_" ++ c.id,
    name := "Booking Photo: " ++ c.name,
    unidentifiedDescription := "An official police booking photo.",
    ownerCharacterId := some c.id,
    authorCharacterId := none,
    category := some "police_file",
    locationFoundId := "loc_police_station",
    timestamp := now,
    imagePrompt := mugshotPrompt c.name props,
    description := "Official booking photo for " ++ c.name ++ ".",
    rarity := some "irrelevant",
    timeToAdd := some 0 }

/-- The fixed list of recognized component types of the consistency pass. -/
def standardComponentTypes : List String :=
  ["socialMedia", "phoneLog", "cctv", "records", "file", "purchaseInfo", "interaction", "dialogue"]

/-- One iteration of the character transform: synthesize the statement
testimony, append a mugshot object for suspects with physical
characteristics, and pad the component list with empty placeholders for
standard types that have backing objects.  Returns the updated shared object
list, the updated testimony accumulator, and the transformed character. -/
def transformCharacterStep (now : String) (objs : List RawObject)
    (tms : List Testimony) (c : RawCharacter) :
    List RawObject × List Testimony × Character :=
  let stmtResult : List String × List Testimony :=
    if strTruthy c.statement then
      let testimonyId := "testimony-" ++ c.id
      ([testimonyId],
       tms ++ [{ id := testimonyId,
                 title := "Statement from " ++ c.name,
                 content := c.statement.getD "",
                 sourceCharacterId := c.id }])
    else ([], tms)
  let testimonyIds := stmtResult.1
  let tms := stmtResult.2
  let components := c.components.getD []
  let physicalChars :=
    (components.find? (fun comp => comp.type = "physicalCharacteristics")).map
      (fun comp => comp.props)
  let objs :=
    match physicalChars with
    | some props => if c.role = "suspect" then objs ++ [mugshotObject now c props] else objs
    | none => objs
  let components := standardComponentTypes.foldl (fun comps ty =>
    let hasComponentData :=
      objs.any (fun obj => obj.ownerCharacterId = some c.id && obj.category = some ty) ||
      objs.any (fun obj => obj.authorCharacterId = some c.id && ty = "socialMedia")
    let hasComponentOnCharacter := comps.any (fun existing => existing.type = ty)
    if hasComponentData && !hasComponentOnCharacter then
      comps ++ [{ type := ty, props := [] }]
    else comps) components
  (objs, tms,
   { id := c.id,
     name := c.name,
     age := c.age,
     occupation := c.occupation,
     imagePrompt := c.imagePrompt,
     description := c.bio,
     role := c.role.toLower,
     isSuspect := c.isSuspect,
     connections := c.connections.getD
       { relatedPeople := [], knownLocations := [], associatedObjects := [] },
     testimonyIds := testimonyIds,
     components := components })

/-- Function `transformCharacterData(rawCharacters, allRawObjects, testimonies)`:
maps the step over the characters in order, threading the shared mutable
object list and testimony accumulator.  Returns the final object list, the
final testimony list and the transformed characters. -/
def transformCharacterData (now : String) (rawCharacters : List RawCharacter)
    (allRawObjects : List RawObject) (testimonies : List Testimony) :
    List RawObject × List Testimony × List Character :=
  match rawCharacters with
  | [] => (allRawObjects, testimonies, [])
  | c :: rest =>
    let step := transformCharacterStep now allRawObjects testimonies c
    let restResult := transformCharacterData now rest step.1 step.2.1
    (restResult.1, restResult.2.1, step.2.2 :: restResult.2.2)

/-- The testimony `transformCharacterData` synthesizes for a raw character
with a truthy statement (spec side of the C9 claim). -/
def testimonyFor (c : RawCharacter) : Option Testimony :=
  if strTruthy c.statement then
    some { id := "testimony-" ++ c.id,
           title := "Statement from " ++ c.name,
           content := c.statement.getD "",
           sourceCharacterId := c.id }
  else none

-- ---------------------------------------------------------------------------
-- Image generation queue processor (processImageGenerationQueue thunk)
-- ---------------------------------------------------------------------------

/-- Reducer `setImageLoading`. -/
def setImageLoading (st : StoryState) (cardId : String) (isLoading : Bool) : StoryState :=
  { st with imageLoading := fun k => if k = cardId then isLoading else st.imageLoading k }

/-- Reducer `setImageUrl`. -/
def setImageUrl (st : StoryState) (cardId imageUrl : String) : StoryState :=
  { st with imageUrls := fun k => if k = cardId then some imageUrl else st.imageUrls k }

/-- Reducer `setImageError`. -/
def setImageError (st : StoryState) (cardId : String) (hasError : Bool) : StoryState :=
  { st with imageErrors := fun k => if k = cardId then hasError else st.imageErrors k }

/-- Reducer `dequeueImageRequests`: `splice(0, n)` drops the first `n`
requests. -/
def dequeueImageRequests (st : StoryState) (n : Nat) : StoryState :=
  { st with imageGenerationQueue := st.imageGenerationQueue.drop n }

/-- Reducer `setIsProcessingQueue`. -/
def setIsProcessingQueue (st : StoryState) (b : Bool) : StoryState :=
  { st with isProcessingQueue := b }

/-- The possible outcomes of one call to the external image-generation
service for a request: a successful result published as an object URL, a
null/failed result after the service's own retries, or a thrown error. -/
inductive ImgOutcome
  | success (url : String)
  | failed
  | thrown
  deriving Repr, DecidableEq

/-- Processing of a single dequeued request (the body of the `batch.map`
callback): mark loading, call the service (modelled by the deterministic
outcome oracle), publish the URL on success or set the error flag on a null
result or a thrown error, and always clear the loading flag in the `finally`
step. -/
def processRequest (oracle : ImageGenerationRequest → ImgOutcome)
    (st : StoryState) (request : ImageGenerationRequest) : StoryState :=
  let st := setImageLoading st request.cardId true
  let st :=
    match oracle request with
    | .success url => setImageUrl st request.cardId url
    | .failed => setImageError st request.cardId true
    | .thrown => setImageError st request.cardId true
  setImageLoading st request.cardId false

/-- The `while` loop of the processor: take up to `limit` requests off the
front, dequeue them immediately, run the batch (the settled concurrent batch
is modelled as a left fold; each request only writes the dictionary keys of
its own cardId), and repeat.  The loop is given explicit fuel because the
source loop does not terminate when the configured concurrency limit is 0;
`none` means the fuel was exhausted before the queue drained. -/
def processBatches (oracle : ImageGenerationRequest → ImgOutcome) (limit : Nat) :
    Nat → StoryState → Option StoryState
  | 0, st => if st.imageGenerationQueue.isEmpty then some st else none
  | fuel + 1, st =>
    if st.imageGenerationQueue.isEmpty then some st
    else
      let batch := st.imageGenerationQueue.take limit
      let st := dequeueImageRequests st batch.length
      let st := batch.foldl (processRequest oracle) st
      processBatches oracle limit fuel st

/-- The `processImageGenerationQueue` thunk: a no-op when another orchestrator
is already running or the queue is empty; otherwise set the re-entrancy
guard, drain the queue in batches and clear the guard. -/
def processImageGenerationQueue (oracle : ImageGenerationRequest → ImgOutcome)
    (limit fuel : Nat) (st : StoryState) : Option StoryState :=
  if st.isProcessingQueue || st.imageGenerationQueue.isEmpty then some st
  else
    let st := setIsProcessingQueue st true
    match processBatches oracle limit fuel st with
    | some st1 => some (setIsProcessingQueue st1 false)
    | none => none

-- ---------------------------------------------------------------------------
-- Derived definitions used by the claims
-- ---------------------------------------------------------------------------

/-- The cardIds of an Evidence timeline are pairwise distinct. -/
def noDupCardIds (l : List Evidence) : Prop :=
  (l.map (fun e => e.cardId)).Nodup

/-- Whether `addToTimeline id` dispatched in this state takes the
first-unlock branch, charging the object's `timeToAdd`: the object resolves,
no Evidence entry with this cardId is on the timeline, and the object's
`hasBeenUnlocked` is still false. -/
def addChargesNow (st : StoryState) (id : String) : Bool :=
  match st.objects.find? (fun o => o.id = id) with
  | none => false
  | some item => !(st.evidence.any (fun e => e.cardId = id)) && !item.hasBeenUnlocked

/-- Whether the operation is an `addToTimeline` of `id` that charges the
object's `timeToAdd` in this state. -/
def opChargesTimeToAdd (st : StoryState) (op : StoryOp) (id : String) : Bool :=
  match op with
  | .add i => i = id && addChargesNow st id
  | _ => false

/-- How many operations of the trace charge object `id`'s `timeToAdd`. -/
def chargeCount (st : StoryState) (ops : List StoryOp) (id : String) : Nat :=
  match ops with
  | [] => 0
  | op :: rest =>
    (if opChargesTimeToAdd st op id then 1 else 0) + chargeCount (applyStoryOp st op) rest id

/-- Spec-side correctness condition for placing a PRIMARY clue (from the spec
wording: correct iff the target slot's declared `correctEventKey` equals the
clue's `eventKey`). -/
def specCorrectPrimary (clue : Clue) (slot : EvidenceSlot) : Prop :=
  slot.correctEventKey = some clue.eventKey

/-- Spec-side correctness condition for placing a SUPPORTING clue (from the
spec wording: the active anchor's primary slot is already filled, the target
slot is among that anchor's declared supporting slots, and the clue's
category equals the anchor's id). -/
def specCorrectSupporting (st : CaseFileState) (clue : Clue) (anchor : TimelineAnchor)
    (slotId : String) : Prop :=
  strTruthy ((st.slots.find? (fun s => s.slotId = anchor.primarySlot.slotId)).bind
      (fun s => s.placedClueId)) = true
  ∧ (∃ s ∈ anchor.supportingSlots, s.slotId = slotId)
  ∧ clue.category = anchor.id

-- ---------------------------------------------------------------------------
-- Concrete fixtures (used by counterexamples and witnesses)
-- ---------------------------------------------------------------------------

/-- A story object with a one-time unlock cost of 15, never unlocked. -/
def sampleObject : StoryObject :=
  { id := "o1", name := "Bloody Knife", imagePrompt := "knife", timestamp := "t1",
    isEvidence := false, assignedToSuspectIds := [], locationFoundId := "loc1",
    timeToAdd := some 15, hasBeenUnlocked := false }

/-- A location for the sample state. -/
def sampleLocation : Location := { id := "loc1", lastEventTimestamp := "t0" }

/-- A small story state: one locked object, one location, empty timeline,
time 0. -/
def sampleStoryState : StoryState :=
  { storyInfo := { mapImagePrompt := "", mapTitle := "", crimeSceneId := "" },
    characters := [], objects := [sampleObject], events := [], locations := [sampleLocation],
    sublocations := [], evidence := [], testimonies := [],
    imageUrls := fun _ => none, imageLoading := fun _ => false, imageErrors := fun _ => false,
    imageGenerationQueue := [], isProcessingQueue := false, timeSpent := 0 }

/-- The sample story state with an empty `locations` collection. -/
def noLocState : StoryState := { sampleStoryState with locations := [] }

/-- A primary clue worth 10 + 5 bonus for event key `ek1`, category
`motive`. -/
def samplePrimaryClue : Clue :=
  { id := "c1", eventKey := "ek1", text := "t", type := "PRIMARY",
    category := "motive", points := 10, bonusPoints := some 5 }

/-- A supporting clue worth 3, category `motive`. -/
def sampleSupportingClue : Clue :=
  { id := "c2", eventKey := "ek2", text := "t", type := "SUPPORTING",
    category := "motive", points := 3, bonusPoints := none }

/-- The primary slot of the sample anchor, expecting `ek1`. -/
def samplePrimarySlot : EvidenceSlot :=
  { slotId := "sP", correctEventKey := some "ek1", placedClueId := none }

/-- A supporting slot of the sample anchor. -/
def sampleSupportingSlot : EvidenceSlot :=
  { slotId := "sS", correctEventKey := none, placedClueId := none }

/-- The sample `motive` anchor. -/
def sampleAnchor : TimelineAnchor :=
  { id := "motive", title := "M", timeLabel := "tl",
    primarySlot := samplePrimarySlot, supportingSlots := [sampleSupportingSlot] }

/-- A loaded case-file state on the `motive` tab with the primary clue
selected. -/
def sampleCaseFileState : CaseFileState :=
  { viewMode := .workspace, activeTab := "motive", selectedClueId := some "c1",
    clues := [samplePrimaryClue, sampleSupportingClue],
    slots := [samplePrimarySlot, sampleSupportingSlot],
    anchors := [sampleAnchor], score := 0, lastIncorrectSlotId := none }

/-- An image generation request for a card. -/
def mkReq (c : String) : ImageGenerationRequest :=
  { cardId := c, prompt := "p", colorTreatment := "monochrome" }

/-- A story state whose image queue holds three requests. -/
def sampleQueueState : StoryState :=
  { sampleStoryState with imageGenerationQueue := [mkReq "a", mkReq "b", mkReq "c"] }

/-- A service oracle: card `b` fails, card `c` throws, others succeed. -/
def sampleOracle : ImageGenerationRequest → ImgOutcome := fun r =>
  if r.cardId = "b" then .failed
  else if r.cardId = "c" then .thrown
  else .success ("url-" ++ r.cardId)

/-- A raw character with a non-empty statement. -/
def sampleRawCharacter : RawCharacter :=
  { id := "c1", name := "Marla", age := "30", role := "Witness",
    occupation := "nurse", imagePrompt := "p", bio := "b", isSuspect := false,
    statement := some "I saw nothing", components := none, connections := none }

-- ---------------------------------------------------------------------------
-- Helper lemmas
-- ---------------------------------------------------------------------------

theorem find?_map_comm {α : Type} (l : List α) (f : α → α) (p : α → Bool)
    (hp : ∀ x, p (f x) = p x) : (l.map f).find? p = (l.find? p).map f := by
  rw [List.find?_map]
  have h : p ∘ f = p := funext hp
  rw [h]

theorem find?_ite_update_ne {α : Type} (idOf : α → String) (g : α → α)
    (hg : ∀ x, idOf (g x) = idOf x) (l : List α) (target o : String) (hne : ¬ (o = target)) :
    (l.map (fun x => if idOf x = target then g x else x)).find? (fun x => idOf x = o)
      = l.find? (fun x => idOf x = o) := by
  rw [find?_map_comm]
  · cases h : l.find? (fun x => idOf x = o) with
    | none => rfl
    | some e =>
      have he : idOf e = o := by simpa using List.find?_some h
      simp [he, hne]
  · intro x
    by_cases hx : idOf x = target
    · simp [hx, hg]
    · simp [hx]

theorem find?_ite_update_eq {α : Type} (idOf : α → String) (g : α → α)
    (hg : ∀ x, idOf (g x) = idOf x) (l : List α) (target : String) :
    (l.map (fun x => if idOf x = target then g x else x)).find? (fun x => idOf x = target)
      = (l.find? (fun x => idOf x = target)).map g := by
  rw [find?_map_comm]
  · cases h : l.find? (fun x => idOf x = target) with
    | none => rfl
    | some e =>
      have he : idOf e = target := by simpa using List.find?_some h
      simp [he]
  · intro x
    by_cases hx : idOf x = target
    · simp [hx, hg]
    · simp [hx]

theorem unlockEntity_timeSpent (st : StoryState) (ty : UnlockType) (ref : String) (c : Int) :
    (unlockEntity st ty ref c).timeSpent = st.timeSpent + c := by
  cases ty <;> simp only [unlockEntity] <;>
    first
      | rfl
      | (split <;> first | rfl | (split <;> rfl))

theorem unlockEntity_evidence_frame (st : StoryState) (ty : UnlockType) (ref : String) (c : Int) :
    (unlockEntity st ty ref c).evidence = st.evidence := by
  cases ty <;> simp only [unlockEntity] <;>
    first
      | rfl
      | (split <;> first | rfl | (split <;> rfl))

theorem unlockEntity_sublocation_flags (st : StoryState) (ref : String) (c : Int) :
    ((unlockEntity st .sublocation ref c).objects = st.objects
    ∧ (unlockEntity st .sublocation ref c).events = st.events)
    ∧ (∀ sub, st.sublocations.find? (fun s => s.id = ref) = some sub →
        (sub.hasBeenUnlocked = false →
          (unlockEntity st .sublocation ref c).sublocations.find? (fun s => s.id = ref)
            = some { sub with isVisible := true, hasBeenUnlocked := true }
          ∧ ∀ o, ¬ (o = ref) →
              (unlockEntity st .sublocation ref c).sublocations.find? (fun s => s.id = o)
                = st.sublocations.find? (fun s => s.id = o))
        ∧ (sub.hasBeenUnlocked = true →
            (unlockEntity st .sublocation ref c).sublocations = st.sublocations))
    ∧ (st.sublocations.find? (fun s => s.id = ref) = none →
        (unlockEntity st .sublocation ref c).sublocations = st.sublocations) := by
  refine ⟨⟨?_, ?_⟩, ?_, ?_⟩
  · simp only [unlockEntity]; split <;> first | rfl | (split <;> rfl)
  · simp only [unlockEntity]; split <;> first | rfl | (split <;> rfl)
  · intro sub hfind
    constructor
    · intro hun
      simp only [unlockEntity, hfind, hun, Bool.not_false, if_true]
      constructor
      · rw [find?_ite_update_eq (fun s : Sublocation => s.id)
            (fun s => { s with isVisible := true, hasBeenUnlocked := true }) (fun _ => rfl), hfind]
        rfl
      · intro o hne
        rw [find?_ite_update_ne (fun s : Sublocation => s.id)
            (fun s => { s with isVisible := true, hasBeenUnlocked := true }) (fun _ => rfl)
            st.sublocations ref o hne]
    · intro hun
      simp only [unlockEntity, hfind, hun, Bool.not_true, if_false]
      rfl
  · intro hfind
    simp only [unlockEntity, hfind]

theorem unlockEntity_evidence_flags (st : StoryState) (ref : String) (c : Int) :
    ((unlockEntity st .evidence ref c).sublocations = st.sublocations
    ∧ (unlockEntity st .evidence ref c).events = st.events)
    ∧ (∀ obj, st.objects.find? (fun o => o.id = ref) = some obj →
        (obj.hasBeenUnlocked = false →
          (unlockEntity st .evidence ref c).objects.find? (fun o => o.id = ref)
            = some { obj with hasBeenUnlocked := true }
          ∧ ∀ o, ¬ (o = ref) →
              (unlockEntity st .evidence ref c).objects.find? (fun x => x.id = o)
                = st.objects.find? (fun x => x.id = o))
        ∧ (obj.hasBeenUnlocked = true →
            (unlockEntity st .evidence ref c).objects = st.objects))
    ∧ (st.objects.find? (fun o => o.id = ref) = none →
        (unlockEntity st .evidence ref c).objects = st.objects) := by
  refine ⟨⟨?_, ?_⟩, ?_, ?_⟩
  · simp only [unlockEntity]; split <;> first | rfl | (split <;> rfl)
  · simp only [unlockEntity]; split <;> first | rfl | (split <;> rfl)
  · intro obj hfind
    constructor
    · intro hun
      simp only [unlockEntity, hfind, hun, Bool.not_false, if_true]
      constructor
      · rw [find?_ite_update_eq (fun o : StoryObject => o.id)
            (fun o => { o with hasBeenUnlocked := true }) (fun _ => rfl), hfind]
        rfl
      · intro o hne
        rw [find?_ite_update_ne (fun o : StoryObject => o.id)
            (fun o => { o with hasBeenUnlocked := true }) (fun _ => rfl)
            st.objects ref o hne]
    · intro hun
      simp only [unlockEntity, hfind, hun, Bool.not_true, if_false]
      rfl
  · intro hfind
    simp only [unlockEntity, hfind]

theorem unlockEntity_event_flags (st : StoryState) (ref : String) (c : Int) :
    ((unlockEntity st .event ref c).sublocations = st.sublocations
    ∧ (unlockEntity st .event ref c).objects = st.objects)
    ∧ (∀ ev, st.events.find? (fun e => e.id = ref) = some ev →
        (ev.hasBeenUnlocked = false →
          (unlockEntity st .event ref c).events.find? (fun e => e.id = ref)
            = some { ev with hasBeenUnlocked := true }
          ∧ ∀ o, ¬ (o = ref) →
              (unlockEntity st .event ref c).events.find? (fun e => e.id = o)
                = st.events.find? (fun e => e.id = o))
        ∧ (ev.hasBeenUnlocked = true →
            (unlockEntity st .event ref c).events = st.events))
    ∧ (st.events.find? (fun e => e.id = ref) = none →
        (unlockEntity st .event ref c).events = st.events) := by
  refine ⟨⟨?_, ?_⟩, ?_, ?_⟩
  · simp only [unlockEntity]; split <;> first | rfl | (split <;> rfl)
  · simp only [unlockEntity]; split <;> first | rfl | (split <;> rfl)
  · intro ev hfind
    constructor
    · intro hun
      simp only [unlockEntity, hfind, hun, Bool.not_false, if_true]
      constructor
      · rw [find?_ite_update_eq (fun e : StoryEvent => e.id)
            (fun e => { e with hasBeenUnlocked := true }) (fun _ => rfl), hfind]
        rfl
      · intro o hne
        rw [find?_ite_update_ne (fun e : StoryEvent => e.id)
            (fun e => { e with hasBeenUnlocked := true }) (fun _ => rfl)
            st.events ref o hne]
    · intro hun
      simp only [unlockEntity, hfind, hun, Bool.not_true, if_false]
      rfl
  · intro hfind
    simp only [unlockEntity, hfind]

/-- C6: every call `unlockEntity(type, ref, timeCost)` increases `timeSpent`
by exactly the payload's time cost, unconditionally — even when the target is
already unlocked or does not resolve.  When the type is `sublocation` and the
target exists with `hasBeenUnlocked` false, both its `isVisible` and
`hasBeenUnlocked` flags flip to true; when the type is `evidence` or `event`
and the target exists with `hasBeenUnlocked` false, its `hasBeenUnlocked`
flips to true; other entities are untouched, and for `location` or
`character` types no flag on any entity is mutated (the call equals a bare
`addTimeSpent`). -/
theorem unlockEntity_charges_time_and_flips_flags
    (st : StoryState) (ty : UnlockType) (ref : String) (c : Int) :
    (unlockEntity st ty ref c).timeSpent = st.timeSpent + c
    ∧ ((ty = .location ∨ ty = .character) → unlockEntity st ty ref c = addTimeSpent st c)
    ∧ (ty = .sublocation →
        (unlockEntity st ty ref c).objects = st.objects
        ∧ (unlockEntity st ty ref c).events = st.events
        ∧ (∀ sub, st.sublocations.find? (fun s => s.id = ref) = some sub →
            (sub.hasBeenUnlocked = false →
              (unlockEntity st ty ref c).sublocations.find? (fun s => s.id = ref)
                = some { sub with isVisible := true, hasBeenUnlocked := true }
              ∧ ∀ o, ¬ (o = ref) →
                  (unlockEntity st ty ref c).sublocations.find? (fun s => s.id = o)
                    = st.sublocations.find? (fun s => s.id = o))
            ∧ (sub.hasBeenUnlocked = true →
                (unlockEntity st ty ref c).sublocations = st.sublocations))
        ∧ (st.sublocations.find? (fun s => s.id = ref) = none →
            (unlockEntity st ty ref c).sublocations = st.sublocations))
    ∧ (ty = .evidence →
        (unlockEntity st ty ref c).sublocations = st.sublocations
        ∧ (unlockEntity st ty ref c).events = st.events
        ∧ (∀ obj, st.objects.find? (fun o => o.id = ref) = some obj →
            (obj.hasBeenUnlocked = false →
              (unlockEntity st ty ref c).objects.find? (fun o => o.id = ref)
                = some { obj with hasBeenUnlocked := true }
              ∧ ∀ o, ¬ (o = ref) →
                  (unlockEntity st ty ref c).objects.find? (fun x => x.id = o)
                    = st.objects.find? (fun x => x.id = o))
            ∧ (obj.hasBeenUnlocked = true →
                (unlockEntity st ty ref c).objects = st.objects))
        ∧ (st.objects.find? (fun o => o.id = ref) = none →
            (unlockEntity st ty ref c).objects = st.objects))
    ∧ (ty = .event →
        (unlockEntity st ty ref c).sublocations = st.sublocations
        ∧ (unlockEntity st ty ref c).objects = st.objects
        ∧ (∀ ev, st.events.find? (fun e => e.id = ref) = some ev →
            (ev.hasBeenUnlocked = false →
              (unlockEntity st ty ref c).events.find? (fun e => e.id = ref)
                = some { ev with hasBeenUnlocked := true }
              ∧ ∀ o, ¬ (o = ref) →
                  (unlockEntity st ty ref c).events.find? (fun e => e.id = o)
                    = st.events.find? (fun e => e.id = o))
            ∧ (ev.hasBeenUnlocked = true →
                (unlockEntity st ty ref c).events = st.events))
        ∧ (st.events.find? (fun e => e.id = ref) = none →
            (unlockEntity st ty ref c).events = st.events)) := by
  refine ⟨unlockEntity_timeSpent st ty ref c, ?_, ?_, ?_, ?_⟩
  · rintro (rfl | rfl) <;> rfl
  · rintro rfl
    have h := unlockEntity_sublocation_flags st ref c
    exact ⟨h.1.1, h.1.2, h.2.1, h.2.2⟩
  · rintro rfl
    have h := unlockEntity_evidence_flags st ref c
    exact ⟨h.1.1, h.1.2, h.2.1, h.2.2⟩
  · rintro rfl
    have h := unlockEntity_event_flags st ref c
    exact ⟨h.1.1, h.1.2, h.2.1, h.2.2⟩

/-- Witness for C6 at a concrete input: unlocking object `o1` of the sample
state as an `evidence` target with time cost 7 charges 7 and flips the
object's `hasBeenUnlocked`. -/
theorem unlockEntity_charges_time_and_flips_flags_witness :
    (unlockEntity sampleStoryState .evidence "o1" 7).timeSpent = sampleStoryState.timeSpent + 7
    ∧ (unlockEntity sampleStoryState .evidence "o1" 7).objects.find? (fun o => o.id = "o1")
        = some { sampleObject with hasBeenUnlocked := true } := by
  have h := unlockEntity_charges_time_and_flips_flags sampleStoryState .evidence "o1" 7
  refine ⟨h.1, ?_⟩
  have h2 := (h.2.2.2.1 rfl).2.2.1 sampleObject (by rfl)
  exact (h2.1 (by rfl)).1

/-- C10: `subtractTimeSpent(amount)` sets `timeSpent` to
`max 0 (timeSpent - amount)` — so the total can never become negative through
this operation — and changes nothing else in the state. -/
theorem subtractTimeSpent_clamps_at_zero (st : StoryState) (amount : Int) :
    subtractTimeSpent st amount = { st with timeSpent := max 0 (st.timeSpent - amount) }
    ∧ 0 ≤ (subtractTimeSpent st amount).timeSpent := by
  exact ⟨rfl, le_max_left _ _⟩

theorem removeFromTimeline_frame (st : StoryState) (id : String) :
    (removeFromTimeline st id).timeSpent = st.timeSpent
    ∧ (removeFromTimeline st id).characters = st.characters
    ∧ (removeFromTimeline st id).locations = st.locations
    ∧ (removeFromTimeline st id).events = st.events
    ∧ (removeFromTimeline st id).sublocations = st.sublocations
    ∧ (removeFromTimeline st id).testimonies = st.testimonies
    ∧ (removeFromTimeline st id).storyInfo = st.storyInfo
    ∧ (removeFromTimeline st id).imageUrls = st.imageUrls
    ∧ (removeFromTimeline st id).imageLoading = st.imageLoading
    ∧ (removeFromTimeline st id).imageErrors = st.imageErrors
    ∧ (removeFromTimeline st id).imageGenerationQueue = st.imageGenerationQueue
    ∧ (removeFromTimeline st id).isProcessingQueue = st.isProcessingQueue := by
  simp only [removeFromTimeline]
  split
  · exact ⟨rfl, rfl, rfl, rfl, rfl, rfl, rfl, rfl, rfl, rfl, rfl, rfl⟩
  · split
    · exact ⟨rfl, rfl, rfl, rfl, rfl, rfl, rfl, rfl, rfl, rfl, rfl, rfl⟩
    · exact ⟨rfl, rfl, rfl, rfl, rfl, rfl, rfl, rfl, rfl, rfl, rfl, rfl⟩

/-- C7: `removeFromTimeline(objectId)` never changes `timeSpent` (no refund);
when the object exists with `isEvidence` true, its only effects are to clear
the object's `isEvidence` flag and suspect assignments and to remove the
matching Evidence entries from the timeline list, leaving every other part of
the state (and every other object) unchanged; when the object does not exist
or is not on the timeline (`isEvidence` false), the call is a no-op. -/
theorem removeFromTimeline_no_refund_frame (st : StoryState) (id : String) :
    (removeFromTimeline st id).timeSpent = st.timeSpent
    ∧ (removeFromTimeline st id).characters = st.characters
    ∧ (removeFromTimeline st id).locations = st.locations
    ∧ (removeFromTimeline st id).events = st.events
    ∧ (removeFromTimeline st id).sublocations = st.sublocations
    ∧ (removeFromTimeline st id).testimonies = st.testimonies
    ∧ (removeFromTimeline st id).storyInfo = st.storyInfo
    ∧ (removeFromTimeline st id).imageUrls = st.imageUrls
    ∧ (removeFromTimeline st id).imageLoading = st.imageLoading
    ∧ (removeFromTimeline st id).imageErrors = st.imageErrors
    ∧ (removeFromTimeline st id).imageGenerationQueue = st.imageGenerationQueue
    ∧ (removeFromTimeline st id).isProcessingQueue = st.isProcessingQueue
    ∧ (st.objects.find? (fun o => o.id = id) = none → removeFromTimeline st id = st)
    ∧ (∀ item, st.objects.find? (fun o => o.id = id) = some item →
        (item.isEvidence = false → removeFromTimeline st id = st)
        ∧ (item.isEvidence = true →
            (removeFromTimeline st id).evidence = st.evidence.filter (fun e => ¬ (e.cardId = id))
            ∧ (removeFromTimeline st id).objects.find? (fun o => o.id = id)
                = some { item with isEvidence := false, assignedToSuspectIds := [] }
            ∧ ∀ o, ¬ (o = id) → (removeFromTimeline st id).objects.find? (fun x => x.id = o)
                = st.objects.find? (fun x => x.id = o))) := by
  have hf := removeFromTimeline_frame st id
  refine ⟨hf.1, hf.2.1, hf.2.2.1, hf.2.2.2.1, hf.2.2.2.2.1, hf.2.2.2.2.2.1,
    hf.2.2.2.2.2.2.1, hf.2.2.2.2.2.2.2.1, hf.2.2.2.2.2.2.2.2.1,
    hf.2.2.2.2.2.2.2.2.2.1, hf.2.2.2.2.2.2.2.2.2.2.1, hf.2.2.2.2.2.2.2.2.2.2.2, ?_, ?_⟩
  · intro hnone
    simp only [removeFromTimeline, hnone]
  · intro item hfind
    constructor
    · intro hev
      simp only [removeFromTimeline, hfind, hev, if_false]
      rfl
    · intro hev
      have hobjs : (removeFromTimeline st id).objects
          = st.objects.map (fun x =>
              if x.id = id then { x with isEvidence := false, assignedToSuspectIds := [] } else x) := by
        simp only [removeFromTimeline, hfind, hev, if_true]
      have hevid : (removeFromTimeline st id).evidence
          = st.evidence.filter (fun e => ¬ (e.cardId = id)) := by
        simp only [removeFromTimeline, hfind, hev, if_true]
      refine ⟨hevid, ?_, ?_⟩
      · rw [hobjs, find?_ite_update_eq (fun x : StoryObject => x.id)
            (fun x => { x with isEvidence := false, assignedToSuspectIds := [] }) (fun _ => rfl),
          hfind]
        rfl
      · intro o hne
        rw [hobjs, find?_ite_update_ne (fun x : StoryObject => x.id)
            (fun x => { x with isEvidence := false, assignedToSuspectIds := [] }) (fun _ => rfl)
            st.objects id o hne]

/-- Witness for C7 at a concrete input: removing object `o1` — which is on
the timeline of `addToTimeline sampleStoryState "o1"` — leaves `timeSpent`
untouched and empties the Evidence list. -/
theorem removeFromTimeline_no_refund_frame_witness :
    (removeFromTimeline (addToTimeline sampleStoryState "o1") "o1").timeSpent
      = (addToTimeline sampleStoryState "o1").timeSpent
    ∧ (removeFromTimeline (addToTimeline sampleStoryState "o1") "o1").evidence = [] := by
  have h := removeFromTimeline_no_refund_frame (addToTimeline sampleStoryState "o1") "o1"
  refine ⟨h.1, ?_⟩
  have h2 := h.2.2.2.2.2.2.2.2.2.2.2.2.2 { sampleObject with isEvidence := true, hasBeenUnlocked := true } (by rfl)
  have h3 := (h2.2 (by rfl)).1
  rw [h3]
  rfl

theorem chargeStep_frame (st : StoryState) (id : String) (item : StoryObject) :
    (addToTimelineChargeStep st id item).evidence = st.evidence
    ∧ (addToTimelineChargeStep st id item).locations = st.locations
    ∧ (addToTimelineChargeStep st id item).timeSpent
        = st.timeSpent + (if item.hasBeenUnlocked then 0 else item.timeToAdd.getD 0) := by
  simp only [addToTimelineChargeStep]
  cases hu : item.hasBeenUnlocked <;> simp [hu]

theorem pushStep_frame (st1 : StoryState) (id : String) (item : StoryObject) :
    (addToTimelinePushStep st1 id item).objects = st1.objects
    ∧ (addToTimelinePushStep st1 id item).timeSpent = st1.timeSpent
    ∧ (addToTimelinePushStep st1 id item).locations = st1.locations := by
  simp only [addToTimelinePushStep]
  split
  · exact ⟨rfl, rfl, rfl⟩
  · split
    · exact ⟨rfl, rfl, rfl⟩
    · exact ⟨rfl, rfl, rfl⟩

theorem pushStep_evidence_cases (st1 : StoryState) (id : String) (item : StoryObject) :
    (addToTimelinePushStep st1 id item).evidence = st1.evidence
    ∨ (st1.evidence.any (fun e => e.cardId = id) = false
       ∧ ∃ entry : Evidence, entry.cardId = item.id
           ∧ (addToTimelinePushStep st1 id item).evidence = st1.evidence ++ [entry]) := by
  cases hany : st1.evidence.any (fun e => e.cardId = id) with
  | true => left; simp [addToTimelinePushStep, hany]
  | false =>
    simp only [addToTimelinePushStep, hany]
    rw [if_neg Bool.false_ne_true]
    split
    · left; rfl
    · right
      exact ⟨trivial, _, rfl, rfl⟩

theorem addToTimeline_evidence_cases (st : StoryState) (id : String) :
    (addToTimeline st id).evidence = st.evidence
    ∨ (st.evidence.any (fun e => e.cardId = id) = false
       ∧ ∃ entry : Evidence, entry.cardId = id
           ∧ (addToTimeline st id).evidence = st.evidence ++ [entry]) := by
  cases h : st.objects.find? (fun o => o.id = id) with
  | none => left; simp [addToTimeline, h]
  | some item =>
    have hid : item.id = id := by simpa using List.find?_some h
    cases hany : st.evidence.any (fun e => e.cardId = id) with
    | true => left; simp [addToTimeline, h, hany]
    | false =>
      have hred : addToTimeline st id
          = addToTimelinePushStep (addToTimelineChargeStep st id item) id item := by
        simp [addToTimeline, h, hany]
      rw [hred]
      have hev1 : (addToTimelineChargeStep st id item).evidence = st.evidence :=
        (chargeStep_frame st id item).1
      rcases pushStep_evidence_cases (addToTimelineChargeStep st id item) id item with hc | hc
      · left; rw [hc, hev1]
      · right
        rw [hev1] at hc
        exact ⟨rfl, hc.2.imp (fun entry he => ⟨hid ▸ he.1, he.2⟩)⟩

theorem addDynamicObject_evidence_frame (st : StoryState) (obj : StoryObject) :
    (addDynamicObject st obj).evidence = st.evidence := by
  simp only [addDynamicObject]
  split <;> rfl

theorem assignEvidenceToSuspect_evidence_frame (st : StoryState) (o s : String) :
    (assignEvidenceToSuspect st o s).evidence = st.evidence := by
  simp only [assignEvidenceToSuspect]
  split <;> rfl

theorem removeFromTimeline_evidence_cases (st : StoryState) (id : String) :
    (removeFromTimeline st id).evidence = st.evidence
    ∨ (removeFromTimeline st id).evidence = st.evidence.filter (fun e => ¬ (e.cardId = id)) := by
  simp only [removeFromTimeline]
  split
  · left; rfl
  · split
    · right; rfl
    · left; rfl

/-- C5: the Evidence timeline never contains two entries with the same
`cardId`: the initial evidence installed by the cartridge-load reducer has
pairwise-distinct cardIds, and every story-slice operation (addToTimeline,
removeFromTimeline, unlockEntity and the other modelled reducers) preserves
distinctness. -/
theorem evidence_cardIds_nodup_invariant :
    (∀ st sd, noDupCardIds (loadStoryCartridgeFulfilled st sd).evidence)
    ∧ (∀ st op, noDupCardIds st.evidence → noDupCardIds (applyStoryOp st op).evidence) := by
  constructor
  · intro st sd
    simp only [loadStoryCartridgeFulfilled, noDupCardIds, initialEvidenceFor]
    split <;> simp
  · intro st op h
    cases op with
    | add id =>
      rcases addToTimeline_evidence_cases st id with hc | ⟨hany, entry, hcard, hc⟩
      · unfold noDupCardIds at h ⊢
        simpa only [applyStoryOp, hc] using h
      · unfold noDupCardIds at h ⊢
        simp only [applyStoryOp, hc, List.map_append, List.map_cons, List.map_nil]
        rw [List.nodup_append]
        refine ⟨h, List.nodup_singleton _, ?_⟩
        intro a ha hb
        have hforall : ∀ e ∈ st.evidence, ¬ (e.cardId = id) := by
          intro e he
          intro hcontra
          have : st.evidence.any (fun e => e.cardId = id) = true :=
            List.any_eq_true.mpr ⟨e, he, by simpa using hcontra⟩
          rw [this] at hany
          exact Bool.noConfusion hany
        rcases List.mem_map.mp ha with ⟨e, he, hea⟩
        have hab : a = entry.cardId := by simpa using hb
        exact hforall e he (by rw [hea, hab, hcard])
    | remove id =>
      rcases removeFromTimeline_evidence_cases st id with hc | hc
      · unfold noDupCardIds at h ⊢
        simpa only [applyStoryOp, hc] using h
      · unfold noDupCardIds at h ⊢
        simp only [applyStoryOp, hc]
        have hsub : List.Sublist
            ((st.evidence.filter (fun e => ¬ (e.cardId = id))).map (fun e => e.cardId))
            (st.evidence.map (fun e => e.cardId)) :=
          (List.filter_sublist st.evidence).map _
        exact h.sublist hsub
    | unlock ty ref t =>
      unfold noDupCardIds at h ⊢
      simpa only [applyStoryOp, unlockEntity_evidence_frame] using h
    | addTime a => exact h
    | subTime a => exact h
    | addDyn obj =>
      unfold noDupCardIds at h ⊢
      simpa only [applyStoryOp, addDynamicObject_evidence_frame] using h
    | assign o s =>
      unfold noDupCardIds at h ⊢
      simpa only [applyStoryOp, assignEvidenceToSuspect_evidence_frame] using h

/-- Witness for C5 at a concrete input: adding object `o1` to the sample
state's timeline keeps the cardIds duplicate-free. -/
theorem evidence_cardIds_nodup_invariant_witness :
    noDupCardIds (applyStoryOp sampleStoryState (.add "o1")).evidence := by
  exact evidence_cardIds_nodup_invariant.2 sampleStoryState (.add "o1") (by
    unfold noDupCardIds
    simp [sampleStoryState])

theorem unlocked_find_mono (l : List StoryObject) (g : StoryObject → StoryObject)
    (hgid : ∀ x, (g x).id = x.id)
    (hgun : ∀ x, x.hasBeenUnlocked = true → (g x).hasBeenUnlocked = true)
    (target o : String)
    (h : (((l.find? (fun x => x.id = o)).map (fun x => x.hasBeenUnlocked)).getD false) = true) :
    ((((l.map (fun x => if x.id = target then g x else x)).find?
        (fun x => x.id = o)).map (fun x => x.hasBeenUnlocked)).getD false) = true := by
  by_cases heq : o = target
  · subst heq
    rw [find?_ite_update_eq (fun x : StoryObject => x.id) g hgid]
    cases hf : l.find? (fun x => x.id = o) with
    | none => rw [hf] at h; exact absurd h (by simp)
    | some e =>
      rw [hf] at h
      simp only [Option.map_some', Option.getD_some] at h
      simp only [hf, Option.map_some', Option.getD_some]
      exact hgun e h
  · rw [find?_ite_update_ne (fun x : StoryObject => x.id) g hgid l target o heq]
    exact h

theorem unlocked_find_append (l : List StoryObject) (obj : StoryObject) (o : String)
    (h : (((l.find? (fun x => x.id = o)).map (fun x => x.hasBeenUnlocked)).getD false) = true) :
    ((((l ++ [obj]).find? (fun x => x.id = o)).map (fun x => x.hasBeenUnlocked)).getD false)
      = true := by
  cases hf : l.find? (fun x => x.id = o) with
  | none => rw [hf] at h; exact absurd h (by simp)
  | some e =>
    rw [List.find?_append, hf]
    rw [hf] at h
    exact h

theorem chargeStep_unlocked_mono (st : StoryState) (id : String) (item : StoryObject)
    (o : String) (h : objUnlocked st o = true) :
    objUnlocked (addToTimelineChargeStep st id item) o = true := by
  unfold objUnlocked at h ⊢
  simp only [addToTimelineChargeStep]
  cases hu : item.hasBeenUnlocked with
  | false =>
    simp only [hu, Bool.not_false, if_true]
    exact unlocked_find_mono st.objects
      (fun x => { x with isEvidence := true, hasBeenUnlocked := true })
      (fun _ => rfl) (fun _ _ => rfl) id o h
  | true =>
    simp only [hu, Bool.not_true, if_false]
    exact unlocked_find_mono st.objects
      (fun x => { x with isEvidence := true })
      (fun _ => rfl) (fun x hx => hx) id o h

theorem pushStep_objUnlocked (st1 : StoryState) (id : String) (item : StoryObject)
    (o : String) : objUnlocked (addToTimelinePushStep st1 id item) o = objUnlocked st1 o := by
  unfold objUnlocked
  rw [(pushStep_frame st1 id item).1]

theorem addToTimeline_unlocked_mono (st : StoryState) (id o : String)
    (h : objUnlocked st o = true) : objUnlocked (addToTimeline st id) o = true := by
  cases hf : st.objects.find? (fun x => x.id = id) with
  | none => simpa [addToTimeline, hf] using h
  | some item =>
    cases hany : st.evidence.any (fun e => e.cardId = id) with
    | true => simpa [addToTimeline, hf, hany] using h
    | false =>
      have hred : addToTimeline st id
          = addToTimelinePushStep (addToTimelineChargeStep st id item) id item := by
        simp [addToTimeline, hf, hany]
      rw [hred, pushStep_objUnlocked]
      exact chargeStep_unlocked_mono st id item o h

theorem removeFromTimeline_objUnlocked (st : StoryState) (id o : String) :
    objUnlocked (removeFromTimeline st id) o = objUnlocked st o := by
  cases hf : st.objects.find? (fun x => x.id = id) with
  | none => simp [removeFromTimeline, hf]
  | some item =>
    cases hev : item.isEvidence with
    | false => simp [removeFromTimeline, hf, hev]
    | true =>
      have hobjs : (removeFromTimeline st id).objects
          = st.objects.map (fun x =>
              if x.id = id then { x with isEvidence := false, assignedToSuspectIds := [] } else x) := by
        simp only [removeFromTimeline, hf, hev, if_true]
      unfold objUnlocked
      rw [hobjs]
      by_cases heq : o = id
      · subst heq
        rw [find?_ite_update_eq (fun x : StoryObject => x.id)
            (fun x => { x with isEvidence := false, assignedToSuspectIds := [] }) (fun _ => rfl)]
        cases hfo : st.objects.find? (fun x => x.id = o) <;> simp
      · rw [find?_ite_update_ne (fun x : StoryObject => x.id)
            (fun x => { x with isEvidence := false, assignedToSuspectIds := [] }) (fun _ => rfl)
            st.objects id o heq]

theorem unlockEntity_objUnlocked_mono (st : StoryState) (ty : UnlockType) (ref : String)
    (c : Int) (o : String) (h : objUnlocked st o = true) :
    objUnlocked (unlockEntity st ty ref c) o = true := by
  cases ty with
  | location => simpa [unlockEntity, objUnlocked] using h
  | character => simpa [unlockEntity, objUnlocked] using h
  | sublocation =>
    cases hf : st.sublocations.find? (fun s => s.id = ref) with
    | none => simpa [unlockEntity, objUnlocked, hf] using h
    | some sub =>
      cases hu : sub.hasBeenUnlocked with
      | false => simpa [unlockEntity, objUnlocked, hf, hu] using h
      | true => simpa [unlockEntity, objUnlocked, hf, hu] using h
  | event =>
    cases hf : st.events.find? (fun e => e.id = ref) with
    | none => simpa [unlockEntity, objUnlocked, hf] using h
    | some ev =>
      cases hu : ev.hasBeenUnlocked with
      | false => simpa [unlockEntity, objUnlocked, hf, hu] using h
      | true => simpa [unlockEntity, objUnlocked, hf, hu] using h
  | evidence =>
    cases hf : st.objects.find? (fun x => x.id = ref) with
    | none => simpa [unlockEntity, objUnlocked, hf] using h
    | some obj =>
      cases hu : obj.hasBeenUnlocked with
      | true => simpa [unlockEntity, objUnlocked, hf, hu] using h
      | false =>
        have hobjs : (unlockEntity st .evidence ref c).objects
            = st.objects.map (fun x =>
                if x.id = ref then { x with hasBeenUnlocked := true } else x) := by
          simp only [unlockEntity, hf, hu, Bool.not_false, if_true]
        unfold objUnlocked at h ⊢
        rw [hobjs]
        exact unlocked_find_mono st.objects
          (fun x => { x with hasBeenUnlocked := true })
          (fun _ => rfl) (fun _ _ => rfl) ref o h

theorem applyStoryOp_unlocked_mono (st : StoryState) (op : StoryOp) (o : String)
    (h : objUnlocked st o = true) : objUnlocked (applyStoryOp st op) o = true := by
  cases op with
  | add id => exact addToTimeline_unlocked_mono st id o h
  | remove id =>
    show objUnlocked (removeFromTimeline st id) o = true
    rw [removeFromTimeline_objUnlocked]
    exact h
  | unlock ty ref t => exact unlockEntity_objUnlocked_mono st ty ref t o h
  | addTime a => exact h
  | subTime a => exact h
  | addDyn obj =>
    show objUnlocked (addDynamicObject st obj) o = true
    unfold objUnlocked at h ⊢
    cases hf : st.objects.find? (fun x => x.id = obj.id) with
    | some e => simpa [addDynamicObject, hf] using h
    | none =>
      simp only [addDynamicObject, hf]
      exact unlocked_find_append st.objects obj o h
  | assign oid s =>
    show objUnlocked (assignEvidenceToSuspect st oid s) o = true
    unfold objUnlocked at h ⊢
    cases hf : st.objects.find? (fun x => x.id = oid) with
    | none => simpa [assignEvidenceToSuspect, hf] using h
    | some obj =>
      simp only [assignEvidenceToSuspect, hf]
      exact unlocked_find_mono st.objects
        (fun x => { x with assignedToSuspectIds :=
            if obj.assignedToSuspectIds.contains s = true then
              obj.assignedToSuspectIds.filter (fun i => ¬ (i = s))
            else obj.assignedToSuspectIds ++ [s] })
        (fun _ => rfl) (fun _ hx => hx) oid o h

theorem applyStoryOps_unlocked_mono (st : StoryState) (ops : List StoryOp) (o : String)
    (h : objUnlocked st o = true) : objUnlocked (applyStoryOps st ops) o = true := by
  induction ops generalizing st with
  | nil => exact h
  | cons op rest ih =>
    exact ih (applyStoryOp st op) (applyStoryOp_unlocked_mono st op o h)

theorem opCharges_false_of_unlocked (st : StoryState) (op : StoryOp) (o : String)
    (h : objUnlocked st o = true) : opChargesTimeToAdd st op o = false := by
  cases op with
  | add i =>
    simp only [opChargesTimeToAdd]
    by_cases hio : i = o
    · subst hio
      cases hf : st.objects.find? (fun x => x.id = i) with
      | none =>
        unfold objUnlocked at h
        rw [hf] at h
        exact absurd h (by simp)
      | some item =>
        unfold objUnlocked at h
        rw [hf] at h
        simp only [Option.map_some', Option.getD_some] at h
        simp [addChargesNow, hf, h]
    · simp [hio]
  | remove i => rfl
  | unlock ty ref t => rfl
  | addTime a => rfl
  | subTime a => rfl
  | addDyn obj => rfl
  | assign a b => rfl

theorem addToTimeline_unlocks_if_charges (st : StoryState) (id : String)
    (h : addChargesNow st id = true) : objUnlocked (addToTimeline st id) id = true := by
  unfold addChargesNow at h
  cases hf : st.objects.find? (fun x => x.id = id) with
  | none => rw [hf] at h; exact absurd h (by simp)
  | some item =>
    rw [hf] at h
    simp only [Bool.and_eq_true, Bool.not_eq_true'] at h
    have hred : addToTimeline st id
        = addToTimelinePushStep (addToTimelineChargeStep st id item) id item := by
      simp [addToTimeline, hf, h.1]
    rw [hred, pushStep_objUnlocked]
    unfold objUnlocked
    have hobjs : (addToTimelineChargeStep st id item).objects
        = st.objects.map (fun x =>
            if x.id = id then { x with isEvidence := true, hasBeenUnlocked := true } else x) := by
      simp only [addToTimelineChargeStep, h.2, Bool.not_false, if_true]
    rw [hobjs, find?_ite_update_eq (fun x : StoryObject => x.id)
        (fun x => { x with isEvidence := true, hasBeenUnlocked := true }) (fun _ => rfl), hf]
    rfl

theorem opCharges_unlocks (st : StoryState) (op : StoryOp) (o : String)
    (h : opChargesTimeToAdd st op o = true) : objUnlocked (applyStoryOp st op) o = true := by
  cases op with
  | add i =>
    simp only [opChargesTimeToAdd, Bool.and_eq_true] at h
    have hio : i = o := by simpa using h.1
    subst hio
    exact addToTimeline_unlocks_if_charges st i h.2
  | remove i => exact absurd h (by simp [opChargesTimeToAdd])
  | unlock ty ref t => exact absurd h (by simp [opChargesTimeToAdd])
  | addTime a => exact absurd h (by simp [opChargesTimeToAdd])
  | subTime a => exact absurd h (by simp [opChargesTimeToAdd])
  | addDyn obj => exact absurd h (by simp [opChargesTimeToAdd])
  | assign a b => exact absurd h (by simp [opChargesTimeToAdd])

theorem chargeCount_zero_of_unlocked (st : StoryState) (ops : List StoryOp) (o : String)
    (h : objUnlocked st o = true) : chargeCount st ops o = 0 := by
  induction ops generalizing st with
  | nil => rfl
  | cons op rest ih =>
    simp only [chargeCount, opCharges_false_of_unlocked st op o h, if_false,
      Bool.false_eq_true, Nat.zero_add]
    exact ih (applyStoryOp st op) (applyStoryOp_unlocked_mono st op o h)

theorem chargeCount_le_one (st : StoryState) (ops : List StoryOp) (o : String) :
    chargeCount st ops o ≤ 1 := by
  induction ops generalizing st with
  | nil => exact Nat.zero_le 1
  | cons op rest ih =>
    by_cases hc : opChargesTimeToAdd st op o = true
    · simp only [chargeCount, hc, if_true]
      rw [chargeCount_zero_of_unlocked (applyStoryOp st op) rest o (opCharges_unlocks st op o hc)]
    · simp only [chargeCount, hc, if_false]
      simpa using ih (applyStoryOp st op)

theorem addToTimeline_timeSpent (st : StoryState) (id : String) :
    (addToTimeline st id).timeSpent
      = st.timeSpent + (if addChargesNow st id = true then objTimeToAdd st id else 0) := by
  cases hf : st.objects.find? (fun x => x.id = id) with
  | none => simp [addToTimeline, addChargesNow, hf]
  | some item =>
    cases hany : st.evidence.any (fun e => e.cardId = id) with
    | true => simp [addToTimeline, addChargesNow, hf, hany]
    | false =>
      have hred : addToTimeline st id
          = addToTimelinePushStep (addToTimelineChargeStep st id item) id item := by
        simp [addToTimeline, hf, hany]
      rw [hred, (pushStep_frame _ id item).2.1, (chargeStep_frame st id item).2.2]
      have hcharge : addChargesNow st id = !item.hasBeenUnlocked := by
        simp [addChargesNow, hf, hany]
      have htta : objTimeToAdd st id = item.timeToAdd.getD 0 := by
        simp [objTimeToAdd, hf]
      cases hu : item.hasBeenUnlocked with
      | true => simp [hcharge, htta, hu]
      | false => simp [hcharge, htta, hu]

theorem addToTimeline_find?_ne (st : StoryState) (id o : String) (hne : ¬ (o = id)) :
    (addToTimeline st id).objects.find? (fun x => x.id = o)
      = st.objects.find? (fun x => x.id = o) := by
  cases hf : st.objects.find? (fun x => x.id = id) with
  | none => simp [addToTimeline, hf]
  | some item =>
    cases hany : st.evidence.any (fun e => e.cardId = id) with
    | true => simp [addToTimeline, hf, hany]
    | false =>
      have hred : addToTimeline st id
          = addToTimelinePushStep (addToTimelineChargeStep st id item) id item := by
        simp [addToTimeline, hf, hany]
      rw [hred, (pushStep_frame _ id item).1]
      cases hu : item.hasBeenUnlocked with
      | false =>
        have hobjs : (addToTimelineChargeStep st id item).objects
            = st.objects.map (fun x =>
                if x.id = id then { x with isEvidence := true, hasBeenUnlocked := true } else x) := by
          simp only [addToTimelineChargeStep, hu, Bool.not_false, if_true]
        rw [hobjs, find?_ite_update_ne (fun x : StoryObject => x.id)
          (fun x => { x with isEvidence := true, hasBeenUnlocked := true }) (fun _ => rfl)
          st.objects id o hne]
      | true =>
        have hobjs : (addToTimelineChargeStep st id item).objects
            = st.objects.map (fun x =>
                if x.id = id then { x with isEvidence := true } else x) := by
          simp only [addToTimelineChargeStep, hu, Bool.not_true, if_false]
          rfl
        rw [hobjs, find?_ite_update_ne (fun x : StoryObject => x.id)
          (fun x => { x with isEvidence := true }) (fun _ => rfl)
          st.objects id o hne]

theorem addToTimeline_transition (st : StoryState) (id o : String) :
    objUnlocked (addToTimeline st id) o
      = (objUnlocked st o || opChargesTimeToAdd st (.add id) o) := by
  by_cases hio : o = id
  · subst hio
    cases hf : st.objects.find? (fun x => x.id = o) with
    | none =>
      have : addToTimeline st o = st := by simp [addToTimeline, hf]
      rw [this]
      simp [objUnlocked, opChargesTimeToAdd, addChargesNow, hf]
    | some item =>
      cases hany : st.evidence.any (fun e => e.cardId = o) with
      | true =>
        have : addToTimeline st o = st := by simp [addToTimeline, hf, hany]
        rw [this]
        simp [opChargesTimeToAdd, addChargesNow, hf, hany]
      | false =>
        have hred : addToTimeline st o
            = addToTimelinePushStep (addToTimelineChargeStep st o item) o item := by
          simp [addToTimeline, hf, hany]
        rw [hred, pushStep_objUnlocked]
        cases hu : item.hasBeenUnlocked with
        | true =>
          have hobjs : (addToTimelineChargeStep st o item).objects
              = st.objects.map (fun x =>
                  if x.id = o then { x with isEvidence := true } else x) := by
            simp only [addToTimelineChargeStep, hu, Bool.not_true, if_false]
            rfl
          unfold objUnlocked
          rw [hobjs, find?_ite_update_eq (fun x : StoryObject => x.id)
            (fun x => { x with isEvidence := true }) (fun _ => rfl), hf]
          simp [opChargesTimeToAdd, addChargesNow, hf, hany, hu]
        | false =>
          have hobjs : (addToTimelineChargeStep st o item).objects
              = st.objects.map (fun x =>
                  if x.id = o then { x with isEvidence := true, hasBeenUnlocked := true } else x) := by
            simp only [addToTimelineChargeStep, hu, Bool.not_false, if_true]
          unfold objUnlocked
          rw [hobjs, find?_ite_update_eq (fun x : StoryObject => x.id)
            (fun x => { x with isEvidence := true, hasBeenUnlocked := true }) (fun _ => rfl), hf]
          simp [opChargesTimeToAdd, addChargesNow, hf, hany, hu]
  · have hfr : (addToTimeline st id).objects.find? (fun x => x.id = o)
        = st.objects.find? (fun x => x.id = o) := addToTimeline_find?_ne st id o hio
    unfold objUnlocked
    rw [hfr]
    have : opChargesTimeToAdd st (.add id) o = false := by
      simp only [opChargesTimeToAdd, Bool.and_eq_false_iff]
      left
      simp
      intro hcontra
      exact hio hcontra.symm
    rw [this, Bool.or_false]

/-- C1 (amended): under every sequence of entity-store operations the
`hasBeenUnlocked` flag of an object is monotone (once true it stays true —
false→true only, never reverting), and the object's `timeToAdd` is charged by
`addToTimeline` in at most one operation of the trace; `addToTimeline`
credits exactly the object's `timeToAdd` when — and only when — it performs
the false→true transition, and adds nothing otherwise; `removeFromTimeline`
never changes `timeSpent` or any unlock flag; a transition caused by
`unlockEntity` credits the call's own payload time cost, not the object's
`timeToAdd`. -/
theorem hasBeenUnlocked_monotone_and_charged_once
    (st : StoryState) (ops : List StoryOp) (o : String) :
    (objUnlocked st o = true → objUnlocked (applyStoryOps st ops) o = true)
    ∧ chargeCount st ops o ≤ 1
    ∧ (∀ id, (addToTimeline st id).timeSpent
        = st.timeSpent + (if addChargesNow st id = true then objTimeToAdd st id else 0))
    ∧ (∀ id o2, objUnlocked (addToTimeline st id) o2
        = (objUnlocked st o2 || opChargesTimeToAdd st (.add id) o2))
    ∧ (∀ id, (removeFromTimeline st id).timeSpent = st.timeSpent
        ∧ ∀ o2, objUnlocked (removeFromTimeline st id) o2 = objUnlocked st o2)
    ∧ (∀ ty ref c, (unlockEntity st ty ref c).timeSpent = st.timeSpent + c) :=
  ⟨applyStoryOps_unlocked_mono st ops o,
   chargeCount_le_one st ops o,
   fun id => addToTimeline_timeSpent st id,
   fun id o2 => addToTimeline_transition st id o2,
   fun id => ⟨(removeFromTimeline_frame st id).1,
     fun o2 => removeFromTimeline_objUnlocked st id o2⟩,
   fun ty ref c => unlockEntity_timeSpent st ty ref c⟩

/-- Witness for C1 (amended) at a concrete input: over the trace
add-remove-add of object `o1` on the sample state, `o1` ends unlocked and its
`timeToAdd` is charged exactly once. -/
theorem hasBeenUnlocked_monotone_and_charged_once_witness :
    chargeCount sampleStoryState [.add "o1", .remove "o1", .add "o1"] "o1" ≤ 1
    ∧ objUnlocked (applyStoryOps (applyStoryOp sampleStoryState (.add "o1"))
        [.remove "o1", .add "o1"]) "o1" = true := by
  have h := hasBeenUnlocked_monotone_and_charged_once sampleStoryState
    [StoryOp.add "o1", StoryOp.remove "o1", StoryOp.add "o1"] "o1"
  refine ⟨h.2.1, ?_⟩
  have h2 := hasBeenUnlocked_monotone_and_charged_once
    (applyStoryOp sampleStoryState (.add "o1")) [StoryOp.remove "o1", StoryOp.add "o1"] "o1"
  exact h2.1 (by decide)

/-- Counterexample for C1 as stated: in the sample state, the single
entity-store operation `unlockEntity(evidence, "o1", 0)` transitions object
`o1`'s `hasBeenUnlocked` from false to true, yet `timeSpent` stays 0 — the
object's `timeToAdd` of 15 is never credited, refuting "timeToAdd is
credited exactly once, coincident with that false-to-true transition". -/
theorem unlockEntity_transition_without_timeToAdd_charge :
    objUnlocked sampleStoryState "o1" = false
    ∧ objTimeToAdd sampleStoryState "o1" = 15
    ∧ objUnlocked (applyStoryOp sampleStoryState (.unlock .evidence "o1" 0)) "o1" = true
    ∧ (applyStoryOp sampleStoryState (.unlock .evidence "o1" 0)).timeSpent
        = sampleStoryState.timeSpent
    ∧ sampleStoryState.timeSpent + 15 ≠ sampleStoryState.timeSpent := by
  refine ⟨by decide, by decide, by decide, by decide, by decide⟩

theorem orElse_head_some {α : Type} (l : List α) (p : α → Bool) (h : l ≠ []) :
    ∃ x, ((l.find? p).orElse (fun _ => l.head?)) = some x := by
  cases hf : l.find? p with
  | some a => exact ⟨a, rfl⟩
  | none =>
    cases l with
    | nil => exact absurd rfl h
    | cons a as => exact ⟨a, rfl⟩

theorem addToTimeline_first_effects (st : StoryState) (o : String) (item : StoryObject)
    (hfind : st.objects.find? (fun x => x.id = o) = some item)
    (hu : item.hasBeenUnlocked = false)
    (hany : st.evidence.any (fun e => e.cardId = o) = false)
    (hloc : st.locations ≠ []) :
    ∃ loc : Location,
      ((st.locations.find? (fun l => l.id = item.locationFoundId)).orElse
          (fun _ => st.locations.head?)) = some loc
      ∧ (addToTimeline st o).timeSpent = st.timeSpent + item.timeToAdd.getD 0
      ∧ (addToTimeline st o).objects = st.objects.map (fun x =>
          if x.id = o then { x with isEvidence := true, hasBeenUnlocked := true } else x)
      ∧ (addToTimeline st o).locations = st.locations
      ∧ (addToTimeline st o).evidence = st.evidence ++ [{
          id := "ev-" ++ o, cardId := item.id, cardType := "object", name := item.name,
          imagePrompt := item.imagePrompt, timestampCollected := item.timestamp,
          locationId := loc.id }] := by
  obtain ⟨loc, hlocfind⟩ :=
    orElse_head_some st.locations (fun l => l.id = item.locationFoundId) hloc
  refine ⟨loc, hlocfind, ?_⟩
  have hred : addToTimeline st o
      = addToTimelinePushStep (addToTimelineChargeStep st o item) o item := by
    simp [addToTimeline, hfind, hany]
  have hcev : (addToTimelineChargeStep st o item).evidence = st.evidence :=
    (chargeStep_frame st o item).1
  have hcloc : (addToTimelineChargeStep st o item).locations = st.locations :=
    (chargeStep_frame st o item).2.1
  have hcts : (addToTimelineChargeStep st o item).timeSpent
      = st.timeSpent + item.timeToAdd.getD 0 := by
    rw [(chargeStep_frame st o item).2.2, hu, if_neg Bool.false_ne_true]
  have hcobjs : (addToTimelineChargeStep st o item).objects
      = st.objects.map (fun x =>
          if x.id = o then { x with isEvidence := true, hasBeenUnlocked := true } else x) := by
    simp only [addToTimelineChargeStep, hu, Bool.not_false, if_true]
  have hpush : addToTimelinePushStep (addToTimelineChargeStep st o item) o item
      = { addToTimelineChargeStep st o item with
          evidence := (addToTimelineChargeStep st o item).evidence ++ [{
            id := "ev-" ++ o, cardId := item.id, cardType := "object", name := item.name,
            imagePrompt := item.imagePrompt, timestampCollected := item.timestamp,
            locationId := loc.id }] } := by
    simp only [addToTimelinePushStep, hcev, hcloc, hany]
    rw [if_neg Bool.false_ne_true, hlocfind]
  rw [hred, hpush]
  refine ⟨?_, ?_, ?_, ?_⟩
  · exact hcts
  · exact hcobjs
  · exact hcloc
  · rw [show ({ addToTimelineChargeStep st o item with
        evidence := (addToTimelineChargeStep st o item).evidence ++ [{
          id := "ev-" ++ o, cardId := item.id, cardType := "object", name := item.name,
          imagePrompt := item.imagePrompt, timestampCollected := item.timestamp,
          locationId := loc.id }] } : StoryState).evidence
      = (addToTimelineChargeStep st o item).evidence ++ [{
          id := "ev-" ++ o, cardId := item.id, cardType := "object", name := item.name,
          imagePrompt := item.imagePrompt, timestampCollected := item.timestamp,
          locationId := loc.id }] from rfl, hcev]

theorem addToTimeline_readd_effects (st : StoryState) (o : String) (item : StoryObject)
    (hfind : st.objects.find? (fun x => x.id = o) = some item)
    (hu : item.hasBeenUnlocked = true)
    (hany : st.evidence.any (fun e => e.cardId = o) = false)
    (hloc : st.locations ≠ []) :
    ∃ loc : Location,
      ((st.locations.find? (fun l => l.id = item.locationFoundId)).orElse
          (fun _ => st.locations.head?)) = some loc
      ∧ (addToTimeline st o).timeSpent = st.timeSpent
      ∧ (addToTimeline st o).objects = st.objects.map (fun x =>
          if x.id = o then { x with isEvidence := true } else x)
      ∧ (addToTimeline st o).locations = st.locations
      ∧ (addToTimeline st o).evidence = st.evidence ++ [{
          id := "ev-" ++ o, cardId := item.id, cardType := "object", name := item.name,
          imagePrompt := item.imagePrompt, timestampCollected := item.timestamp,
          locationId := loc.id }] := by
  obtain ⟨loc, hlocfind⟩ :=
    orElse_head_some st.locations (fun l => l.id = item.locationFoundId) hloc
  refine ⟨loc, hlocfind, ?_⟩
  have hred : addToTimeline st o
      = addToTimelinePushStep (addToTimelineChargeStep st o item) o item := by
    simp [addToTimeline, hfind, hany]
  have hcev : (addToTimelineChargeStep st o item).evidence = st.evidence :=
    (chargeStep_frame st o item).1
  have hcloc : (addToTimelineChargeStep st o item).locations = st.locations :=
    (chargeStep_frame st o item).2.1
  have hcts : (addToTimelineChargeStep st o item).timeSpent = st.timeSpent := by
    rw [(chargeStep_frame st o item).2.2, hu, if_pos rfl, Int.add_zero]
  have hcobjs : (addToTimelineChargeStep st o item).objects
      = st.objects.map (fun x =>
          if x.id = o then { x with isEvidence := true } else x) := by
    simp only [addToTimelineChargeStep, hu, Bool.not_true, if_false]
    rfl
  have hpush : addToTimelinePushStep (addToTimelineChargeStep st o item) o item
      = { addToTimelineChargeStep st o item with
          evidence := (addToTimelineChargeStep st o item).evidence ++ [{
            id := "ev-" ++ o, cardId := item.id, cardType := "object", name := item.name,
            imagePrompt := item.imagePrompt, timestampCollected := item.timestamp,
            locationId := loc.id }] } := by
    simp only [addToTimelinePushStep, hcev, hcloc, hany]
    rw [if_neg Bool.false_ne_true, hlocfind]
  rw [hred, hpush]
  refine ⟨?_, ?_, ?_, ?_⟩
  · exact hcts
  · exact hcobjs
  · exact hcloc
  · rw [show ({ addToTimelineChargeStep st o item with
        evidence := (addToTimelineChargeStep st o item).evidence ++ [{
          id := "ev-" ++ o, cardId := item.id, cardType := "object", name := item.name,
          imagePrompt := item.imagePrompt, timestampCollected := item.timestamp,
          locationId := loc.id }] } : StoryState).evidence
      = (addToTimelineChargeStep st o item).evidence ++ [{
          id := "ev-" ++ o, cardId := item.id, cardType := "object", name := item.name,
          imagePrompt := item.imagePrompt, timestampCollected := item.timestamp,
          locationId := loc.id }] from rfl, hcev]

theorem removeFromTimeline_effects (st : StoryState) (o : String) (item : StoryObject)
    (hfind : st.objects.find? (fun x => x.id = o) = some item)
    (hev : item.isEvidence = true) :
    (removeFromTimeline st o).evidence = st.evidence.filter (fun e => ¬ (e.cardId = o))
    ∧ (removeFromTimeline st o).objects.find? (fun x => x.id = o)
        = some { item with isEvidence := false, assignedToSuspectIds := [] } := by
  have hobjs : (removeFromTimeline st o).objects
      = st.objects.map (fun x =>
          if x.id = o then { x with isEvidence := false, assignedToSuspectIds := [] } else x) := by
    simp only [removeFromTimeline, hfind, hev, if_true]
  have hevid : (removeFromTimeline st o).evidence
      = st.evidence.filter (fun e => ¬ (e.cardId = o)) := by
    simp only [removeFromTimeline, hfind, hev, if_true]
  refine ⟨hevid, ?_⟩
  rw [hobjs, find?_ite_update_eq (fun x : StoryObject => x.id)
      (fun x => { x with isEvidence := false, assignedToSuspectIds := [] }) (fun _ => rfl), hfind]
  rfl

theorem addToTimeline_noop_of_on_timeline (st : StoryState) (o : String)
    (hany : st.evidence.any (fun e => e.cardId = o) = true) :
    addToTimeline st o = st := by
  cases hf : st.objects.find? (fun x => x.id = o) with
  | none => simp [addToTimeline, hf]
  | some item => simp [addToTimeline, hf, hany]

/-- C2 (amended): for any state containing an object `o` with
`hasBeenUnlocked` false that is not on the evidence timeline — provided the
locations collection is non-empty so that the Evidence entry's location can
resolve — `addToTimeline(o)` increases `timeSpent` by exactly the object's
`timeToAdd`, sets `hasBeenUnlocked` and `isEvidence` to true and appends
exactly one Evidence entry with cardId `o`; a second `addToTimeline(o)` while
it is on the timeline changes nothing; and after `removeFromTimeline(o)` a
further `addToTimeline(o)` adds zero additional time and restores the
Evidence entry.  (When no location resolves, the code still charges the time
and flips the flags but appends no Evidence entry — see the
counterexample.) -/
theorem addToTimeline_first_unlock_scenario (st : StoryState) (o : String) (item : StoryObject)
    (hfind : st.objects.find? (fun x => x.id = o) = some item)
    (hu : item.hasBeenUnlocked = false)
    (hany : st.evidence.any (fun e => e.cardId = o) = false)
    (hloc : st.locations ≠ []) :
    (addToTimeline st o).timeSpent = st.timeSpent + item.timeToAdd.getD 0
    ∧ (addToTimeline st o).objects.find? (fun x => x.id = o)
        = some { item with isEvidence := true, hasBeenUnlocked := true }
    ∧ (∃ entry : Evidence, entry.cardId = o
        ∧ (addToTimeline st o).evidence = st.evidence ++ [entry])
    ∧ addToTimeline (addToTimeline st o) o = addToTimeline st o
    ∧ (addToTimeline (removeFromTimeline (addToTimeline st o) o) o).timeSpent
        = (addToTimeline st o).timeSpent
    ∧ (addToTimeline (removeFromTimeline (addToTimeline st o) o) o).evidence
        = (addToTimeline st o).evidence := by
  obtain ⟨loc, hlocfind, hts1, hobjs1, hloc1, hev1⟩ :=
    addToTimeline_first_effects st o item hfind hu hany hloc
  have hido : item.id = o := by simpa using List.find?_some hfind
  have hfind1 : (addToTimeline st o).objects.find? (fun x => x.id = o)
      = some { item with isEvidence := true, hasBeenUnlocked := true } := by
    rw [hobjs1, find?_ite_update_eq (fun x : StoryObject => x.id)
        (fun x => { x with isEvidence := true, hasBeenUnlocked := true }) (fun _ => rfl), hfind]
    rfl
  have hany1 : (addToTimeline st o).evidence.any (fun e => e.cardId = o) = true := by
    rw [hev1]
    simp [List.any_append, hido]
  have hnoop : addToTimeline (addToTimeline st o) o = addToTimeline st o :=
    addToTimeline_noop_of_on_timeline (addToTimeline st o) o hany1
  -- effects of the removal
  obtain ⟨hev2, hfind2⟩ := removeFromTimeline_effects (addToTimeline st o) o
    { item with isEvidence := true, hasBeenUnlocked := true } hfind1 rfl
  have hfilter : st.evidence.filter (fun e => ¬ (e.cardId = o)) = st.evidence := by
    apply List.filter_eq_self.mpr
    intro e he
    have hne : ¬ (e.cardId = o) := by
      intro hc
      have : st.evidence.any (fun e => e.cardId = o) = true :=
        List.any_eq_true.mpr ⟨e, he, by simpa using hc⟩
      rw [this] at hany
      exact Bool.noConfusion hany
    simpa using hne
  have hsingle : ∀ e : Evidence, e.cardId = o →
      ([e] : List Evidence).filter (fun x => ¬ (x.cardId = o)) = [] := by
    intro e he
    simp [List.filter, he]
  have hev2' : (removeFromTimeline (addToTimeline st o) o).evidence = st.evidence := by
    rw [hev2, hev1, List.filter_append, hfilter, hsingle _ (by simpa using hido),
      List.append_nil]
  have hany2 : (removeFromTimeline (addToTimeline st o) o).evidence.any
      (fun e => e.cardId = o) = false := by
    rw [hev2']; exact hany
  have hloc2 : (removeFromTimeline (addToTimeline st o) o).locations = st.locations := by
    rw [(removeFromTimeline_frame (addToTimeline st o) o).2.2.1, hloc1]
  have hloc2ne : (removeFromTimeline (addToTimeline st o) o).locations ≠ [] := by
    rw [hloc2]; exact hloc
  obtain ⟨loc2, hlocfind2, hts3, hobjs3, hloc3, hev3⟩ :=
    addToTimeline_readd_effects (removeFromTimeline (addToTimeline st o) o) o
      { item with isEvidence := false, assignedToSuspectIds := [], hasBeenUnlocked := true }
      hfind2 rfl hany2 hloc2ne
  have hloceq : loc2 = loc := by
    rw [hloc2] at hlocfind2
    have : some loc = some loc2 := by rw [← hlocfind, ← hlocfind2]
    exact (Option.some.inj this).symm
  refine ⟨hts1, hfind1, ⟨_, by simpa using hido, hev1⟩, hnoop, ?_, ?_⟩
  · rw [hts3, (removeFromTimeline_frame (addToTimeline st o) o).1]
  · rw [hev3, hev2', hev1, hloceq]

/-- Witness for C2 (amended) at a concrete input: on the sample state the
first add charges 15, the second add is a no-op, and the add after removal
charges nothing and restores the Evidence list. -/
theorem addToTimeline_first_unlock_scenario_witness :
    (addToTimeline sampleStoryState "o1").timeSpent = sampleStoryState.timeSpent + 15
    ∧ addToTimeline (addToTimeline sampleStoryState "o1") "o1"
        = addToTimeline sampleStoryState "o1"
    ∧ (addToTimeline (removeFromTimeline (addToTimeline sampleStoryState "o1") "o1")
        "o1").timeSpent = (addToTimeline sampleStoryState "o1").timeSpent
    ∧ (addToTimeline (removeFromTimeline (addToTimeline sampleStoryState "o1") "o1")
        "o1").evidence = (addToTimeline sampleStoryState "o1").evidence := by
  have h := addToTimeline_first_unlock_scenario sampleStoryState "o1" sampleObject
    (by decide) (by decide) (by decide) (by decide)
  exact ⟨h.1, h.2.2.2.1, h.2.2.2.2.1, h.2.2.2.2.2⟩

/-- Counterexample for C2 as stated: in the sample state with the locations
collection emptied, object `o1` satisfies all the claim's premises
(`hasBeenUnlocked` false, `timeToAdd` 15, not on the timeline), yet
`addToTimeline "o1"` charges the 15 and flips the flags while appending NO
Evidence entry, because no location resolves for the entry. -/
theorem addToTimeline_no_location_appends_nothing :
    noLocState.objects.find? (fun x => x.id = "o1") = some sampleObject
    ∧ sampleObject.hasBeenUnlocked = false
    ∧ sampleObject.timeToAdd = some 15
    ∧ noLocState.evidence = []
    ∧ (addToTimeline noLocState "o1").timeSpent = noLocState.timeSpent + 15
    ∧ objUnlocked (addToTimeline noLocState "o1") "o1" = true
    ∧ (addToTimeline noLocState "o1").evidence = [] := by
  refine ⟨by decide, by decide, by decide, by decide, by decide, by decide, by decide⟩

theorem placeClueInSlot_resolved (st : CaseFileState) (slotId cid : String)
    (clue : Clue) (slot : EvidenceSlot) (anchor : TimelineAnchor)
    (hsel : st.selectedClueId = some cid) (hne : ¬ (cid = ""))
    (hclue : st.clues.find? (fun c => c.id = cid) = some clue)
    (hslot : st.slots.find? (fun s => s.slotId = slotId) = some slot)
    (hanchor : st.anchors.find? (fun a => a.id = st.activeTab) = some anchor) :
    placeClueInSlot st slotId =
      if placeClueCorrectFlag st clue slot anchor slotId then
        { st with
          slots := st.slots.map (fun s =>
            if s.slotId = slotId then { s with placedClueId := some cid } else s),
          score := st.score + clue.points + clue.bonusPoints.getD 0,
          selectedClueId := none,
          lastIncorrectSlotId := none }
      else { st with lastIncorrectSlotId := some slotId } := by
  have htr : strTruthy (some cid) = true := by
    simp [strTruthy, hne]
  simp only [placeClueInSlot, hsel, htr, Bool.not_true, Option.getD_some]
  rw [if_neg Bool.false_ne_true]
  simp only [hclue, hslot, hanchor]

theorem placeClueCorrectFlag_primary_iff (st : CaseFileState) (clue : Clue)
    (slot : EvidenceSlot) (anchor : TimelineAnchor) (slotId : String)
    (hty : clue.type = "PRIMARY") :
    placeClueCorrectFlag st clue slot anchor slotId = true ↔ specCorrectPrimary clue slot := by
  simp [placeClueCorrectFlag, hty, specCorrectPrimary]

theorem placeClueCorrectFlag_supporting_iff (st : CaseFileState) (clue : Clue)
    (slot : EvidenceSlot) (anchor : TimelineAnchor) (slotId : String)
    (hty : clue.type = "SUPPORTING") :
    placeClueCorrectFlag st clue slot anchor slotId = true
      ↔ specCorrectSupporting st clue anchor slotId := by
  have hnp : ¬ (clue.type = "PRIMARY") := by simp [hty]
  simp [placeClueCorrectFlag, hty, hnp, specCorrectSupporting, List.any_eq_true,
    Bool.and_eq_true, and_assoc]

theorem placeClueInSlot_correct_effects (st : CaseFileState) (slotId cid : String)
    (clue : Clue) (slot : EvidenceSlot) (anchor : TimelineAnchor)
    (hsel : st.selectedClueId = some cid) (hne : ¬ (cid = ""))
    (hclue : st.clues.find? (fun c => c.id = cid) = some clue)
    (hslot : st.slots.find? (fun s => s.slotId = slotId) = some slot)
    (hanchor : st.anchors.find? (fun a => a.id = st.activeTab) = some anchor)
    (hflag : placeClueCorrectFlag st clue slot anchor slotId = true) :
    (placeClueInSlot st slotId).slots.find? (fun s => s.slotId = slotId)
        = some { slot with placedClueId := some cid }
    ∧ (∀ s2, ¬ (s2 = slotId) → (placeClueInSlot st slotId).slots.find?
          (fun s => s.slotId = s2) = st.slots.find? (fun s => s.slotId = s2))
    ∧ (placeClueInSlot st slotId).score = st.score + clue.points + clue.bonusPoints.getD 0
    ∧ (placeClueInSlot st slotId).selectedClueId = none
    ∧ (placeClueInSlot st slotId).lastIncorrectSlotId = none
    ∧ (placeClueInSlot st slotId).clues = st.clues
    ∧ (placeClueInSlot st slotId).anchors = st.anchors
    ∧ (placeClueInSlot st slotId).viewMode = st.viewMode
    ∧ (placeClueInSlot st slotId).activeTab = st.activeTab := by
  have hres : placeClueInSlot st slotId = { st with
      slots := st.slots.map (fun s =>
        if s.slotId = slotId then { s with placedClueId := some cid } else s),
      score := st.score + clue.points + clue.bonusPoints.getD 0,
      selectedClueId := none,
      lastIncorrectSlotId := none } := by
    rw [placeClueInSlot_resolved st slotId cid clue slot anchor hsel hne hclue hslot hanchor,
      hflag, if_pos rfl]
  rw [hres]
  refine ⟨?_, ?_, rfl, rfl, rfl, rfl, rfl, rfl, rfl⟩
  · rw [show ({ st with
        slots := st.slots.map (fun s =>
          if s.slotId = slotId then { s with placedClueId := some cid } else s),
        score := st.score + clue.points + clue.bonusPoints.getD 0,
        selectedClueId := none,
        lastIncorrectSlotId := none } : CaseFileState).slots
      = st.slots.map (fun s =>
          if s.slotId = slotId then { s with placedClueId := some cid } else s) from rfl]
    rw [find?_ite_update_eq (fun s : EvidenceSlot => s.slotId)
        (fun s => { s with placedClueId := some cid }) (fun _ => rfl), hslot]
    rfl
  · intro s2 hs2
    rw [show ({ st with
        slots := st.slots.map (fun s =>
          if s.slotId = slotId then { s with placedClueId := some cid } else s),
        score := st.score + clue.points + clue.bonusPoints.getD 0,
        selectedClueId := none,
        lastIncorrectSlotId := none } : CaseFileState).slots
      = st.slots.map (fun s =>
          if s.slotId = slotId then { s with placedClueId := some cid } else s) from rfl]
    rw [find?_ite_update_ne (fun s : EvidenceSlot => s.slotId)
        (fun s => { s with placedClueId := some cid }) (fun _ => rfl) st.slots slotId s2 hs2]

theorem placeClueInSlot_incorrect_effects (st : CaseFileState) (slotId cid : String)
    (clue : Clue) (slot : EvidenceSlot) (anchor : TimelineAnchor)
    (hsel : st.selectedClueId = some cid) (hne : ¬ (cid = ""))
    (hclue : st.clues.find? (fun c => c.id = cid) = some clue)
    (hslot : st.slots.find? (fun s => s.slotId = slotId) = some slot)
    (hanchor : st.anchors.find? (fun a => a.id = st.activeTab) = some anchor)
    (hflag : placeClueCorrectFlag st clue slot anchor slotId = false) :
    placeClueInSlot st slotId = { st with lastIncorrectSlotId := some slotId } := by
  rw [placeClueInSlot_resolved st slotId cid clue slot anchor hsel hne hclue hslot hanchor,
    hflag, if_neg Bool.false_ne_true]

theorem placeClueInSlot_noop_unresolved (st : CaseFileState) (slotId cid : String)
    (hsel : st.selectedClueId = some cid) (hne : ¬ (cid = ""))
    (hmiss : st.clues.find? (fun c => c.id = cid) = none
      ∨ st.slots.find? (fun s => s.slotId = slotId) = none
      ∨ st.anchors.find? (fun a => a.id = st.activeTab) = none) :
    placeClueInSlot st slotId = st := by
  have htr : strTruthy (some cid) = true := by simp [strTruthy, hne]
  simp only [placeClueInSlot, hsel, htr, Bool.not_true, Option.getD_some]
  rw [if_neg Bool.false_ne_true]
  rcases hmiss with h1 | h2 | h3
  · rw [h1]
  · rw [h2]
    cases hc : st.clues.find? (fun c => c.id = cid) <;> rfl
  · rw [h3]
    cases hc : st.clues.find? (fun c => c.id = cid) with
    | none => rfl
    | some clue => cases hs : st.slots.find? (fun s => s.slotId = slotId) <;> rfl

/-- C3: `placeClueInSlot` with a selected PRIMARY clue is a correct placement
iff the target slot's `correctEventKey` equals the clue's `eventKey`; a
selected SUPPORTING clue is correct iff the active anchor's primary slot is
already filled, the target slot is among that anchor's supporting slots, and
the clue's category equals the anchor's id.  On a correct placement the
slot's `placedClueId` is set to the clue id (the clue stays in the master
clue list), the score grows by the clue's points plus optional bonus, and
the selection and incorrect marker clear; on an incorrect placement only
`lastIncorrectSlotId` is set; with no (truthy) selection or an unresolvable
clue, slot or active anchor, the call is a no-op. -/
theorem placeClueInSlot_spec (st : CaseFileState) (slotId : String) :
    (st.selectedClueId = none → placeClueInSlot st slotId = st)
    ∧ (st.selectedClueId = some "" → placeClueInSlot st slotId = st)
    ∧ ∀ cid, st.selectedClueId = some cid → ¬ (cid = "") →
        ((st.clues.find? (fun c => c.id = cid) = none
            ∨ st.slots.find? (fun s => s.slotId = slotId) = none
            ∨ st.anchors.find? (fun a => a.id = st.activeTab) = none) →
          placeClueInSlot st slotId = st)
        ∧ ∀ clue slot anchor,
            st.clues.find? (fun c => c.id = cid) = some clue →
            st.slots.find? (fun s => s.slotId = slotId) = some slot →
            st.anchors.find? (fun a => a.id = st.activeTab) = some anchor →
            (clue.type = "PRIMARY" →
              (specCorrectPrimary clue slot →
                (placeClueInSlot st slotId).slots.find? (fun s => s.slotId = slotId)
                    = some { slot with placedClueId := some cid }
                ∧ (placeClueInSlot st slotId).score
                    = st.score + clue.points + clue.bonusPoints.getD 0
                ∧ (placeClueInSlot st slotId).selectedClueId = none
                ∧ (placeClueInSlot st slotId).lastIncorrectSlotId = none
                ∧ (placeClueInSlot st slotId).clues = st.clues)
              ∧ (¬ specCorrectPrimary clue slot →
                  placeClueInSlot st slotId = { st with lastIncorrectSlotId := some slotId }))
            ∧ (clue.type = "SUPPORTING" →
              (specCorrectSupporting st clue anchor slotId →
                (placeClueInSlot st slotId).slots.find? (fun s => s.slotId = slotId)
                    = some { slot with placedClueId := some cid }
                ∧ (placeClueInSlot st slotId).score
                    = st.score + clue.points + clue.bonusPoints.getD 0
                ∧ (placeClueInSlot st slotId).selectedClueId = none
                ∧ (placeClueInSlot st slotId).lastIncorrectSlotId = none
                ∧ (placeClueInSlot st slotId).clues = st.clues)
              ∧ (¬ specCorrectSupporting st clue anchor slotId →
                  placeClueInSlot st slotId
                    = { st with lastIncorrectSlotId := some slotId })) := by
  refine ⟨?_, ?_, ?_⟩
  · intro hsel
    simp [placeClueInSlot, hsel, strTruthy]
  · intro hsel
    simp [placeClueInSlot, hsel, strTruthy]
  · intro cid hsel hne
    refine ⟨?_, ?_⟩
    · intro hmiss
      exact placeClueInSlot_noop_unresolved st slotId cid hsel hne hmiss
    · intro clue slot anchor hclue hslot hanchor
      constructor
      · intro hty
        constructor
        · intro hspec
          have hflag : placeClueCorrectFlag st clue slot anchor slotId = true :=
            (placeClueCorrectFlag_primary_iff st clue slot anchor slotId hty).mpr hspec
          have h := placeClueInSlot_correct_effects st slotId cid clue slot anchor
            hsel hne hclue hslot hanchor hflag
          exact ⟨h.1, h.2.2.1, h.2.2.2.1, h.2.2.2.2.1, h.2.2.2.2.2.1⟩
        · intro hnspec
          have hflag : placeClueCorrectFlag st clue slot anchor slotId = false := by
            cases hb : placeClueCorrectFlag st clue slot anchor slotId with
            | false => rfl
            | true =>
              exact absurd ((placeClueCorrectFlag_primary_iff st clue slot anchor slotId hty).mp hb) hnspec
          exact placeClueInSlot_incorrect_effects st slotId cid clue slot anchor
            hsel hne hclue hslot hanchor hflag
      · intro hty
        constructor
        · intro hspec
          have hflag : placeClueCorrectFlag st clue slot anchor slotId = true :=
            (placeClueCorrectFlag_supporting_iff st clue slot anchor slotId hty).mpr hspec
          have h := placeClueInSlot_correct_effects st slotId cid clue slot anchor
            hsel hne hclue hslot hanchor hflag
          exact ⟨h.1, h.2.2.1, h.2.2.2.1, h.2.2.2.2.1, h.2.2.2.2.2.1⟩
        · intro hnspec
          have hflag : placeClueCorrectFlag st clue slot anchor slotId = false := by
            cases hb : placeClueCorrectFlag st clue slot anchor slotId with
            | false => rfl
            | true =>
              exact absurd ((placeClueCorrectFlag_supporting_iff st clue slot anchor slotId hty).mp hb) hnspec
          exact placeClueInSlot_incorrect_effects st slotId cid clue slot anchor
            hsel hne hclue hslot hanchor hflag

/-- Witness for C3 at a concrete input: placing the selected primary clue
`c1` into its matching slot `sP` scores 15 and records the placement, and
placing it into the supporting slot `sS` (a mismatch) only sets the
incorrect marker. -/
theorem placeClueInSlot_spec_witness :
    (placeClueInSlot sampleCaseFileState "sP").score = 15
    ∧ (placeClueInSlot sampleCaseFileState "sP").slots.find?
        (fun s => s.slotId = "sP")
        = some { samplePrimarySlot with placedClueId := some "c1" }
    ∧ placeClueInSlot sampleCaseFileState "sS"
        = { sampleCaseFileState with lastIncorrectSlotId := some "sS" } := by
  have h := (placeClueInSlot_spec sampleCaseFileState "sP").2.2 "c1" rfl (by decide)
  have h2 := (h.2 samplePrimaryClue samplePrimarySlot sampleAnchor
    (by decide) (by decide) (by decide)).1 rfl
  have h3 := h2.1 (by unfold specCorrectPrimary; decide)
  have h4 := (placeClueInSlot_spec sampleCaseFileState "sS").2.2 "c1" rfl (by decide)
  have h5 := ((h4.2 samplePrimaryClue sampleSupportingSlot sampleAnchor
    (by decide) (by decide) (by decide)).1 rfl).2 (by unfold specCorrectPrimary; decide)
  exact ⟨by rw [h3.2.1]; decide, h3.1, h5⟩

/-- C4 (code bug): dispatching `resetInvestigation` evaluates the undefined
identifier `createInitialState` and throws instead of restoring the initial
state; the intended reset (what the reducer's comment and the defined helper
`createEmptyInitialState` prescribe) does satisfy the claim: score exactly 0,
every slot's `placedClueId` null and view mode back to `workspace`. -/
theorem resetInvestigation_throws_reference_error (st : CaseFileState) :
    resetInvestigation st
        = Except.error "ReferenceError: createInitialState is not defined"
    ∧ (resetInvestigationIntended st).score = 0
    ∧ (resetInvestigationIntended st).viewMode = ViewMode.workspace
    ∧ ∀ slot ∈ (resetInvestigationIntended st).slots, slot.placedClueId = none := by
  refine ⟨rfl, rfl, rfl, ?_⟩
  intro slot hs
  simp [resetInvestigationIntended, createEmptyInitialState] at hs

theorem processRequest_effects (oracle : ImageGenerationRequest → ImgOutcome)
    (st : StoryState) (r : ImageGenerationRequest) :
    (processRequest oracle st r).imageGenerationQueue = st.imageGenerationQueue
    ∧ (processRequest oracle st r).isProcessingQueue = st.isProcessingQueue
    ∧ (processRequest oracle st r).imageLoading r.cardId = false
    ∧ (∀ k, ¬ (k = r.cardId) →
        (processRequest oracle st r).imageLoading k = st.imageLoading k)
    ∧ ((∃ u, oracle r = .success u) →
        ((processRequest oracle st r).imageUrls r.cardId).isSome = true)
    ∧ ((oracle r = .failed ∨ oracle r = .thrown) →
        (processRequest oracle st r).imageErrors r.cardId = true)
    ∧ (∀ k, (st.imageUrls k).isSome = true →
        ((processRequest oracle st r).imageUrls k).isSome = true)
    ∧ (∀ k, st.imageErrors k = true → (processRequest oracle st r).imageErrors k = true) := by
  cases ho : oracle r with
  | success u =>
    refine ⟨?_, ?_, ?_, ?_, ?_, ?_, ?_, ?_⟩
    · simp [processRequest, setImageLoading, setImageUrl, ho]
    · simp [processRequest, setImageLoading, setImageUrl, ho]
    · simp [processRequest, setImageLoading, setImageUrl, ho]
    · intro k hk
      simp [processRequest, setImageLoading, setImageUrl, ho, hk]
    · intro _
      simp [processRequest, setImageLoading, setImageUrl, ho]
    · rintro (h | h) <;> exact ImgOutcome.noConfusion h
    · intro k hk
      by_cases hkc : k = r.cardId
      · simp [processRequest, setImageLoading, setImageUrl, ho, hkc]
      · simpa [processRequest, setImageLoading, setImageUrl, ho, hkc] using hk
    · intro k hk
      simpa [processRequest, setImageLoading, setImageUrl, ho] using hk
  | failed =>
    refine ⟨?_, ?_, ?_, ?_, ?_, ?_, ?_, ?_⟩
    · simp [processRequest, setImageLoading, setImageError, ho]
    · simp [processRequest, setImageLoading, setImageError, ho]
    · simp [processRequest, setImageLoading, setImageError, ho]
    · intro k hk
      simp [processRequest, setImageLoading, setImageError, ho, hk]
    · rintro ⟨u, hu⟩
      exact ImgOutcome.noConfusion hu
    · intro _
      simp [processRequest, setImageLoading, setImageError, ho]
    · intro k hk
      simpa [processRequest, setImageLoading, setImageError, ho] using hk
    · intro k hk
      by_cases hkc : k = r.cardId
      · simp [processRequest, setImageLoading, setImageError, ho, hkc]
      · simpa [processRequest, setImageLoading, setImageError, ho, hkc] using hk
  | thrown =>
    refine ⟨?_, ?_, ?_, ?_, ?_, ?_, ?_, ?_⟩
    · simp [processRequest, setImageLoading, setImageError, ho]
    · simp [processRequest, setImageLoading, setImageError, ho]
    · simp [processRequest, setImageLoading, setImageError, ho]
    · intro k hk
      simp [processRequest, setImageLoading, setImageError, ho, hk]
    · rintro ⟨u, hu⟩
      exact ImgOutcome.noConfusion hu
    · intro _
      simp [processRequest, setImageLoading, setImageError, ho]
    · intro k hk
      simpa [processRequest, setImageLoading, setImageError, ho] using hk
    · intro k hk
      by_cases hkc : k = r.cardId
      · simp [processRequest, setImageLoading, setImageError, ho, hkc]
      · simpa [processRequest, setImageLoading, setImageError, ho, hkc] using hk

theorem processBatch_effects (oracle : ImageGenerationRequest → ImgOutcome)
    (B : List ImageGenerationRequest) (st : StoryState) :
    (B.foldl (processRequest oracle) st).imageGenerationQueue = st.imageGenerationQueue
    ∧ (B.foldl (processRequest oracle) st).isProcessingQueue = st.isProcessingQueue
    ∧ (∀ k, (st.imageUrls k).isSome = true →
        ((B.foldl (processRequest oracle) st).imageUrls k).isSome = true)
    ∧ (∀ k, st.imageErrors k = true →
        (B.foldl (processRequest oracle) st).imageErrors k = true)
    ∧ (∀ k, (st.imageLoading k = false ∨ ∃ r ∈ B, r.cardId = k) →
        (B.foldl (processRequest oracle) st).imageLoading k = false)
    ∧ (∀ r ∈ B,
        ((∃ u, oracle r = .success u) →
          ((B.foldl (processRequest oracle) st).imageUrls r.cardId).isSome = true)
        ∧ ((oracle r = .failed ∨ oracle r = .thrown) →
          (B.foldl (processRequest oracle) st).imageErrors r.cardId = true)) := by
  induction B generalizing st with
  | nil =>
    refine ⟨rfl, rfl, fun k hk => hk, fun k hk => hk, ?_, ?_⟩
    · intro k hk
      rcases hk with hk | ⟨r, hr, _⟩
      · exact hk
      · exact absurd hr (List.not_mem_nil r)
    · intro r hr
      exact absurd hr (List.not_mem_nil r)
  | cons r rest ih =>
    have hq := processRequest_effects oracle st r
    have hstep : (r :: rest).foldl (processRequest oracle) st
        = rest.foldl (processRequest oracle) (processRequest oracle st r) := rfl
    rw [hstep]
    have ihr := ih (processRequest oracle st r)
    refine ⟨ihr.1.trans hq.1, ihr.2.1.trans hq.2.1, ?_, ?_, ?_, ?_⟩
    · intro k hk
      exact ihr.2.2.1 k (hq.2.2.2.2.2.2.1 k hk)
    · intro k hk
      exact ihr.2.2.2.1 k (hq.2.2.2.2.2.2.2 k hk)
    · intro k hk
      apply ihr.2.2.2.2.1 k
      by_cases hkc : k = r.cardId
      · left; rw [hkc]; exact hq.2.2.1
      · rcases hk with hk | ⟨r2, hr2, hk2⟩
        · left; rw [hq.2.2.2.1 k hkc]; exact hk
        · rcases List.mem_cons.mp hr2 with h2 | h2
          · exact absurd (h2 ▸ hk2).symm hkc
          · right; exact ⟨r2, h2, hk2⟩
    · intro r2 hr2
      rcases List.mem_cons.mp hr2 with h2 | h2
      · subst h2
        constructor
        · intro hsucc
          exact ihr.2.2.1 r2.cardId (hq.2.2.2.2.1 hsucc)
        · intro hfail
          exact ihr.2.2.2.1 r2.cardId (hq.2.2.2.2.2.1 hfail)
      · exact ihr.2.2.2.2.2 r2 h2

theorem processBatches_spec (oracle : ImageGenerationRequest → ImgOutcome)
    (limit : Nat) (hl : 1 ≤ limit) :
    ∀ (fuel : Nat) (st : StoryState), st.imageGenerationQueue.length ≤ fuel →
    ∃ st', processBatches oracle limit fuel st = some st'
      ∧ st'.imageGenerationQueue = []
      ∧ st'.isProcessingQueue = st.isProcessingQueue
      ∧ (∀ k, (st.imageUrls k).isSome = true → (st'.imageUrls k).isSome = true)
      ∧ (∀ k, st.imageErrors k = true → st'.imageErrors k = true)
      ∧ (∀ k, (st.imageLoading k = false ∨ ∃ r ∈ st.imageGenerationQueue, r.cardId = k) →
          st'.imageLoading k = false)
      ∧ (∀ r ∈ st.imageGenerationQueue,
          ((∃ u, oracle r = .success u) → (st'.imageUrls r.cardId).isSome = true)
          ∧ ((oracle r = .failed ∨ oracle r = .thrown) → st'.imageErrors r.cardId = true)) := by
  intro fuel
  induction fuel with
  | zero =>
    intro st hlen
    have hq : st.imageGenerationQueue = [] := List.length_eq_zero.mp (Nat.le_zero.mp hlen)
    refine ⟨st, ?_, hq, rfl, fun k hk => hk, fun k hk => hk, ?_, ?_⟩
    · simp [processBatches, hq]
    · intro k hk
      rcases hk with hk | ⟨r, hr, _⟩
      · exact hk
      · rw [hq] at hr; exact absurd hr (List.not_mem_nil r)
    · intro r hr
      rw [hq] at hr; exact absurd hr (List.not_mem_nil r)
  | succ n ih =>
    intro st hlen
    by_cases hq : st.imageGenerationQueue = []
    · refine ⟨st, ?_, hq, rfl, fun k hk => hk, fun k hk => hk, ?_, ?_⟩
      · simp [processBatches, hq]
      · intro k hk
        rcases hk with hk | ⟨r, hr, _⟩
        · exact hk
        · rw [hq] at hr; exact absurd hr (List.not_mem_nil r)
      · intro r hr
        rw [hq] at hr; exact absurd hr (List.not_mem_nil r)
    · have hqe : st.imageGenerationQueue.isEmpty = false := by
        simpa [List.isEmpty_iff] using hq
      have hred : processBatches oracle limit (n + 1) st
          = processBatches oracle limit n
              ((st.imageGenerationQueue.take limit).foldl (processRequest oracle)
                (dequeueImageRequests st (st.imageGenerationQueue.take limit).length)) := by
        simp only [processBatches, hqe]
        rw [if_neg Bool.false_ne_true]
      set batch := st.imageGenerationQueue.take limit with hbatch
      set stD := dequeueImageRequests st batch.length with hstD
      set st2 := batch.foldl (processRequest oracle) stD with hst2
      have hbq := processBatch_effects oracle batch stD
      have hst2q : st2.imageGenerationQueue = st.imageGenerationQueue.drop batch.length :=
        hbq.1
      have hbatchlen : 1 ≤ batch.length := by
        rw [hbatch, List.length_take]
        have h1 : 1 ≤ st.imageGenerationQueue.length := by
          cases hcq : st.imageGenerationQueue with
          | nil => exact absurd hcq hq
          | cons a as => simp [hcq]
        omega
      have hlen2 : st2.imageGenerationQueue.length ≤ n := by
        rw [hst2q, List.length_drop]
        omega
      obtain ⟨st', hrun, hq', hproc', hurls', herrs', hload', hreq'⟩ := ih st2 hlen2
      have hsplit : batch ++ st.imageGenerationQueue.drop batch.length
          = st.imageGenerationQueue := by
        rw [hbatch, List.length_take]
        have := List.take_append_drop limit st.imageGenerationQueue
        cases Nat.le_total limit st.imageGenerationQueue.length with
        | inl h => rw [Nat.min_eq_left h]; exact this
        | inr h =>
          rw [Nat.min_eq_right h, List.drop_length, List.take_of_length_le h]
          simp
      refine ⟨st', by rw [hred]; exact hrun, hq', ?_, ?_, ?_, ?_, ?_⟩
      · exact hproc'.trans hbq.2.1
      · intro k hk
        exact hurls' k (hbq.2.2.1 k hk)
      · intro k hk
        exact herrs' k (hbq.2.2.2.1 k hk)
      · intro k hk
        apply hload' k
        by_cases hkb : ∃ r ∈ batch, r.cardId = k
        · left; exact hbq.2.2.2.2.1 k (Or.inr hkb)
        · rcases hk with hk | ⟨r, hr, hrk⟩
          · left; exact hbq.2.2.2.2.1 k (Or.inl hk)
          · have hrmem : r ∈ batch ++ st.imageGenerationQueue.drop batch.length := by
              rw [hsplit]; exact hr
            rcases List.mem_append.mp hrmem with hm | hm
            · exact absurd ⟨r, hm, hrk⟩ hkb
            · right; rw [hst2q]; exact ⟨r, hm, hrk⟩
      · intro r hr
        have hrmem : r ∈ batch ++ st.imageGenerationQueue.drop batch.length := by
          rw [hsplit]; exact hr
        rcases List.mem_append.mp hrmem with hm | hm
        · have hb := hbq.2.2.2.2.2 r hm
          constructor
          · intro hsucc
            exact hurls' r.cardId (hb.1 hsucc)
          · intro hfail
            exact herrs' r.cardId (hb.2 hfail)
        · have : r ∈ st2.imageGenerationQueue := by rw [hst2q]; exact hm
          exact hreq' r this

/-- C8: a `processImageGenerationQueue` run started when no orchestrator is
active (and with a positive concurrency limit and enough loop fuel for the
queue) terminates with an empty queue and `isProcessingQueue` false
regardless of individual request outcomes, and for every request taken off
the queue either an image URL is published for its cardId (on service
success) or its error flag is set (on a null result or a thrown error), one
request's failure never aborting the rest; the request's loading flag is
clear at the end regardless of outcome. -/
theorem processImageGenerationQueue_spec (oracle : ImageGenerationRequest → ImgOutcome)
    (limit fuel : Nat) (st : StoryState)
    (hguard : st.isProcessingQueue = false) (hl : 1 ≤ limit)
    (hfuel : st.imageGenerationQueue.length ≤ fuel) :
    ∃ st', processImageGenerationQueue oracle limit fuel st = some st'
      ∧ st'.imageGenerationQueue = []
      ∧ st'.isProcessingQueue = false
      ∧ ∀ r ∈ st.imageGenerationQueue,
          st'.imageLoading r.cardId = false
          ∧ ((st'.imageUrls r.cardId).isSome = true ∨ st'.imageErrors r.cardId = true)
          ∧ ((∃ u, oracle r = .success u) → (st'.imageUrls r.cardId).isSome = true)
          ∧ ((oracle r = .failed ∨ oracle r = .thrown) → st'.imageErrors r.cardId = true) := by
  by_cases hq : st.imageGenerationQueue = []
  · refine ⟨st, ?_, hq, hguard, ?_⟩
    · simp [processImageGenerationQueue, hq]
    · intro r hr
      rw [hq] at hr
      exact absurd hr (List.not_mem_nil r)
  · have hqe : st.imageGenerationQueue.isEmpty = false := by
      simpa [List.isEmpty_iff] using hq
    set stT := setIsProcessingQueue st true with hstT
    have hTlen : stT.imageGenerationQueue.length ≤ fuel := hfuel
    obtain ⟨st1, hrun, hq1, _hproc1, _hurls1, _herrs1, hload1, hreq1⟩ :=
      processBatches_spec oracle limit hl fuel stT hTlen
    refine ⟨setIsProcessingQueue st1 false, ?_, hq1, rfl, ?_⟩
    · simp only [processImageGenerationQueue, hguard, hqe, Bool.false_or]
      rw [if_neg Bool.false_ne_true]
      rw [← hstT, hrun]
    · intro r hr
      have hrT : r ∈ stT.imageGenerationQueue := hr
      have hload : st1.imageLoading r.cardId = false :=
        hload1 r.cardId (Or.inr ⟨r, hrT, rfl⟩)
      have hout := hreq1 r hrT
      have hdone : (st1.imageUrls r.cardId).isSome = true ∨ st1.imageErrors r.cardId = true := by
        cases ho : oracle r with
        | success u => exact Or.inl (hout.1 ⟨u, ho⟩)
        | failed => exact Or.inr (hout.2 (Or.inl ho))
        | thrown => exact Or.inr (hout.2 (Or.inr ho))
      exact ⟨hload, hdone, hout.1, hout.2⟩

/-- Witness for C8 at a concrete input: draining the sample three-request
queue with limit 2 (card `a` succeeds, `b` fails, `c` throws) ends with an
empty queue, the guard flag clear, a published URL for `a`, error flags for
`b` and `c`, and no loading flags left set. -/
theorem processImageGenerationQueue_spec_witness :
    ∃ st', processImageGenerationQueue sampleOracle 2 3 sampleQueueState = some st'
      ∧ st'.imageGenerationQueue = []
      ∧ st'.isProcessingQueue = false
      ∧ ((st'.imageUrls "a").isSome = true ∨ st'.imageErrors "a" = true)
      ∧ st'.imageErrors "b" = true
      ∧ st'.imageErrors "c" = true
      ∧ st'.imageLoading "a" = false := by
  obtain ⟨st', hrun, hq, hp, hreq⟩ := processImageGenerationQueue_spec sampleOracle 2 3
    sampleQueueState rfl (by decide) (by decide)
  have ha := hreq (mkReq "a") (by decide)
  have hb := hreq (mkReq "b") (by decide)
  have hc := hreq (mkReq "c") (by decide)
  exact ⟨st', hrun, hq, hp, ha.2.1, hb.2.2.2 (by decide), hc.2.2.2 (by decide), ha.1⟩

theorem transformCharacterStep_testimony (now : String) (objs : List RawObject)
    (tms : List Testimony) (c : RawCharacter) :
    (transformCharacterStep now objs tms c).2.1 = tms ++ (testimonyFor c).toList
    ∧ (transformCharacterStep now objs tms c).2.2.testimonyIds
        = (if strTruthy c.statement = true then ["testimony-" ++ c.id] else []) := by
  cases htr : strTruthy c.statement with
  | true => constructor <;> simp [transformCharacterStep, testimonyFor, htr]
  | false => constructor <;> simp [transformCharacterStep, testimonyFor, htr]

/-- C9: for every raw character with a truthy (non-empty, present) statement
the cartridge transform synthesizes exactly one Testimony —
id `testimony-<characterId>`, title `Statement from <name>`, content the
statement, source the character — appended in character order, and the
transformed character's `testimonyIds` is exactly `[testimony-<id>]`; a
character with an empty or absent statement contributes no testimony and an
empty `testimonyIds`.  (`testimonyFor` is the spec-side description of the
synthesized record.) -/
theorem transformCharacterData_testimonies (now : String)
    (rawChars : List RawCharacter) (objs : List RawObject) (tms : List Testimony) :
    (transformCharacterData now rawChars objs tms).2.1
        = tms ++ rawChars.filterMap testimonyFor
    ∧ ((transformCharacterData now rawChars objs tms).2.2.map (fun ch => ch.testimonyIds))
        = rawChars.map (fun c =>
            if strTruthy c.statement = true then ["testimony-" ++ c.id] else []) := by
  induction rawChars generalizing objs tms with
  | nil => constructor <;> simp [transformCharacterData]
  | cons c rest ih =>
    have hstep := transformCharacterStep_testimony now objs tms c
    constructor
    · show (transformCharacterData now (c :: rest) objs tms).2.1 = _
      simp only [transformCharacterData]
      rw [(ih (transformCharacterStep now objs tms c).1
          (transformCharacterStep now objs tms c).2.1).1, hstep.1, List.append_assoc]
      congr 1
      cases htr : strTruthy c.statement with
      | true => simp [List.filterMap_cons, testimonyFor, htr]
      | false => simp [List.filterMap_cons, testimonyFor, htr]
    · show ((transformCharacterData now (c :: rest) objs tms).2.2.map
          (fun ch => ch.testimonyIds)) = _
      simp only [transformCharacterData, List.map_cons]
      rw [(ih (transformCharacterStep now objs tms c).1
          (transformCharacterStep now objs tms c).2.1).2, hstep.2]
